import Mathlib

/-!
Verification of the nats-micro service framework (Python) against its
natural-language specification.

The Python sources are shallowly embedded: dataclasses become structures,
plain functions become Lean functions, fallible code returns Except, and
Python runtime notions (truthiness of optional arguments, dicts as ordered
association lists, float true-division of integers) are modelled explicitly.
All definitions are executable.
-/

namespace NatsMicro

/-! ## Python runtime model

PyVal models a dynamically typed Python value as found in JSON-decoded
monitoring responses. PyErr models the built-in exception kinds raised by
the embedded code paths.
-/

inductive PyVal where
  | none
  | str (s : String)
  | int (n : Int)
  | bool (b : Bool)
  | list (xs : List PyVal)
  | dict (entries : List (String × PyVal))
  deriving Repr, BEq

inductive PyErr where
  | typeError (msg : String)
  | valueError (msg : String)
  | keyError (key : String)
  | runtimeError (msg : String)
  deriving Repr, BEq, DecidableEq

/-- Model of the Python expression (x or d) where x is an optional string
argument: None and the empty string are falsy and select the default. -/
def pyOrStr (x : Option String) (d : String) : String :=
  match x with
  | Option.none => d
  | some s => if s = "" then d else s

/-- Model of the Python expression (x or d) where x is an optional int
argument: None and 0 are falsy and select the default. -/
def pyOrInt (x : Option Int) (d : Int) : Int :=
  match x with
  | Option.none => d
  | some n => if n = 0 then d else n

/-- Model of the Python expression (m or d) for an optional dict argument
mapped to an ordered association list. -/
def pyOrDict {α : Type} (x : Option (List α)) (d : List α) : List α :=
  match x with
  | Option.none => d
  | some l => if l.isEmpty then d else l

/-- Python dict assignment d[k] = v on a dict modelled as an ordered
association list: an existing key keeps its position and its value is
replaced, a new key is appended. -/
def dictInsert {κ ν : Type} [BEq κ] (d : List (κ × ν)) (k : κ) (v : ν) : List (κ × ν) :=
  if d.any (fun p => p.1 == k) then
    d.map (fun p => if p.1 == k then (k, v) else p)
  else
    d ++ [(k, v)]

/-- Python dict lookup d.get(k): first binding of the key wins. -/
def dictGet {κ ν : Type} [BEq κ] (d : List (κ × ν)) (k : κ) : Option ν :=
  (d.find? (fun p => p.1 == k)).map (fun p => p.2)

/-! ## Model of CPython float true-division of integers

In micro/api.py the dispatch handler computes

  average_processing_time = int(processing_time / num_requests)

using float true-division. CPython computes the IEEE-754 binary64 double
nearest to the exact rational quotient (round to nearest, ties to even) and
int() truncates toward zero. roundDouble models the correctly rounded
conversion of a positive rational to binary64 in the normal range (the
stats quantities are far below overflow and above the subnormal range);
nonpositive inputs (which do not occur for stats) are mapped to 0.
-/

/-- Round a rational to the nearest integer, ties to even. -/
def roundHalfEven (x : ℚ) : ℤ :=
  if x - (⌊x⌋ : ℚ) < 1 / 2 then ⌊x⌋
  else if (1 : ℚ) / 2 < x - (⌊x⌋ : ℚ) then ⌊x⌋ + 1
  else if Even ⌊x⌋ then ⌊x⌋ else ⌊x⌋ + 1

/-- Correctly rounded conversion of a positive rational to IEEE-754
binary64 (normal range): scale into the binade, round the 53-bit
significand to nearest with ties to even, and scale back. -/
def roundDouble (q : ℚ) : ℚ :=
  if 0 < q then
    ((roundHalfEven (q * 2 ^ ((52 : ℤ) - Int.log 2 q)) : ℚ)) * 2 ^ (Int.log 2 q - (52 : ℤ))
  else 0

/-- Model of the Python expression a / b on nonnegative ints: the exact
rational quotient, correctly rounded to binary64. -/
def pyTrueDiv (a b : Int) : ℚ := roundDouble ((a : ℚ) / (b : ℚ))

/-- Model of the Python int() conversion of a float: truncation toward
zero. -/
def pyInt (q : ℚ) : ℤ := if q < 0 then -⌊-q⌋ else ⌊q⌋

/-! ## micro/api.py: service, group and endpoint configuration

Embedding of ServiceConfig, EndpointConfig, GroupConfig and the
configuration-merging paths ServiceConfig.endpoint_config,
Service.add_endpoint, Service.group, Group.group (via GroupConfig.child)
and Group.add_endpoint. The handler is carried as an opaque type
parameter H. Dicts of strings become ordered association lists.
-/

namespace Api

def DEFAULT_QUEUE_GROUP : String := "q"

def DEFAULT_SUB_PENDING_MSGS_LIMIT : Int := 512 * 1024

def DEFAULT_SUB_PENDING_BYTES_LIMIT : Int := 128 * 1024 * 1024

structure ServiceConfig where
  name : String
  version : String
  description : String
  metadata : List (String × String)
  queue_group : String
  pending_msgs_limit_by_endpoint : Int
  pending_bytes_limit_by_endpoint : Int
  deriving Repr

structure EndpointConfig (H : Type) where
  name : String
  subject : String
  handler : H
  queue_group : String
  metadata : List (String × String)
  pending_msgs_limit : Int
  pending_bytes_limit : Int
  deriving Repr

structure GroupConfig where
  name : String
  queue_group : String
  pending_msgs_limit_by_endpoint : Int
  pending_bytes_limit_by_endpoint : Int
  deriving Repr

/-- ServiceConfig.endpoint_config: effective endpoint configuration from
explicit (optional) call arguments with service-level defaults, following
the Python truthiness of the or-chains in the source. -/
def ServiceConfig.endpoint_config {H : Type} (cfg : ServiceConfig) (name : String)
    (handler : H) (subject : Option String) (queue_group : Option String)
    (metadata : Option (List (String × String)))
    (pending_bytes_limit : Option Int) (pending_msgs_limit : Option Int) :
    EndpointConfig H :=
  { name := name
    subject := pyOrStr subject name
    handler := handler
    metadata := pyOrDict metadata []
    queue_group := pyOrStr queue_group cfg.queue_group
    pending_bytes_limit := pyOrInt pending_bytes_limit cfg.pending_bytes_limit_by_endpoint
    pending_msgs_limit := pyOrInt pending_msgs_limit cfg.pending_msgs_limit_by_endpoint }

/-- GroupConfig.child: configuration of a subgroup, concatenating the
names with a dot and inheriting defaults that are not overridden (again
with Python or-semantics for the optional arguments). -/
def GroupConfig.child (g : GroupConfig) (name : String) (queue_group : Option String)
    (pending_bytes_limit : Option Int) (pending_msgs_limit : Option Int) : GroupConfig :=
  { name := g.name ++ "." ++ name
    queue_group := pyOrStr queue_group g.queue_group
    pending_bytes_limit_by_endpoint :=
      pyOrInt pending_bytes_limit g.pending_bytes_limit_by_endpoint
    pending_msgs_limit_by_endpoint :=
      pyOrInt pending_msgs_limit g.pending_msgs_limit_by_endpoint }

/-- Service.group: configuration of a top-level group of a service,
defaulting to the service queue group and limits. -/
def Service.group_config (svc : ServiceConfig) (name : String)
    (queue_group : Option String) (pending_bytes_limit_by_endpoint : Option Int)
    (pending_msgs_limit_by_endpoint : Option Int) : GroupConfig :=
  { name := name
    queue_group := pyOrStr queue_group svc.queue_group
    pending_bytes_limit_by_endpoint :=
      pyOrInt pending_bytes_limit_by_endpoint svc.pending_bytes_limit_by_endpoint
    pending_msgs_limit_by_endpoint :=
      pyOrInt pending_msgs_limit_by_endpoint svc.pending_msgs_limit_by_endpoint }

/-- Service.add_endpoint, restricted to the configuration it produces: it
refuses on a stopped service and otherwise delegates to
ServiceConfig.endpoint_config. -/
def Service.add_endpoint_config {H : Type} (svc : ServiceConfig) (stopped : Bool)
    (name : String) (handler : H) (subject : Option String)
    (queue_group : Option String) (metadata : Option (List (String × String)))
    (pending_bytes_limit : Option Int) (pending_msgs_limit : Option Int) :
    Except PyErr (EndpointConfig H) :=
  if stopped then
    Except.error (PyErr.runtimeError "Cannot add endpoint to a stopped service")
  else
    Except.ok (svc.endpoint_config name handler subject queue_group metadata
      pending_bytes_limit pending_msgs_limit)

/-- Group.add_endpoint, restricted to the configuration it produces: the
group prefixes the subject with its name and substitutes its own defaults
before delegating to Service.add_endpoint. -/
def Group.add_endpoint_config {H : Type} (svc : ServiceConfig) (stopped : Bool)
    (g : GroupConfig) (name : String) (handler : H) (subject : Option String)
    (queue_group : Option String) (metadata : Option (List (String × String)))
    (pending_bytes_limit : Option Int) (pending_msgs_limit : Option Int) :
    Except PyErr (EndpointConfig H) :=
  Service.add_endpoint_config svc stopped name handler
    (some (g.name ++ "." ++ pyOrStr subject name))
    (some (pyOrStr queue_group g.queue_group))
    metadata
    (some (pyOrInt pending_bytes_limit g.pending_bytes_limit_by_endpoint))
    (some (pyOrInt pending_msgs_limit g.pending_msgs_limit_by_endpoint))

/-! ### Endpoint statistics and the wrapping dispatch handler -/

structure EndpointStats where
  name : String
  subject : String
  num_requests : Int
  num_errors : Int
  last_error : String
  processing_time : Int
  average_processing_time : Int
  queue_group : String
  data : List (String × PyVal)
  deriving Repr

/-- EndpointStats.new: fresh zeroed statistics for an endpoint. -/
def EndpointStats.new {H : Type} (config : EndpointConfig H) : EndpointStats :=
  { name := config.name
    subject := config.subject
    num_requests := 0
    num_errors := 0
    last_error := ""
    processing_time := 0
    average_processing_time := 0
    queue_group := config.queue_group
    data := [] }

/-- One completed invocation of the wrapping dispatch handler installed by
Service._create_handler, acting on the endpoint statistics. outcome is
none when the user handler returned and (some msg) when it raised an
exception whose str() is msg; elapsed is the nanoseconds measured by the
monotonic timer. The handler increments num_requests, runs the user
handler, on failure increments num_errors and records last_error (and
replies with a 500 service error, modelled separately), then accumulates
processing_time and recomputes average_processing_time with float
true-division truncated by int(). -/
def Service.handlerStep (s : EndpointStats) (outcome : Option String)
    (elapsed : Int) : EndpointStats :=
  let s1 : EndpointStats := { s with num_requests := s.num_requests + 1 }
  let s2 : EndpointStats :=
    match outcome with
    | Option.none => s1
    | some msg => { s1 with num_errors := s1.num_errors + 1, last_error := msg }
  let pt : Int := s2.processing_time + elapsed
  { s2 with
    processing_time := pt
    average_processing_time := pyInt (pyTrueDiv pt s2.num_requests) }

/-- Statistics of an endpoint after a sequence of completed dispatch
invocations starting from fresh statistics. -/
def foldStats {H : Type} (config : EndpointConfig H)
    (trace : List (Option String × Int)) : EndpointStats :=
  trace.foldl (fun s p => Service.handlerStep s p.1 p.2) (EndpointStats.new config)

end Api

/-! ## micro/models.py: monitoring response models

Embedding of the five monitoring models with their as_dict encoding
(skipping None-valued fields) and their from_response decoding
(Base.from_response ignores unknown keys and defaults missing optional
fields; ServiceStats.from_response decodes nested endpoint entries through
EndpointStats.from_response, while ServiceInfo.from_response builds them
with the keyword constructor EndpointInfo(**ep)). Response dicts are
ordered association lists of PyVal; response values are assumed well
typed with respect to the dataclass field annotations, which the Python
runtime does not check but every encoded response satisfies.
-/

namespace Models

def encodeStrDict (m : List (String × String)) : PyVal :=
  PyVal.dict (m.map (fun p => (p.1, PyVal.str p.2)))

/-- Decode a required str field: a missing key makes the dataclass
constructor raise TypeError for the missing argument. -/
def reqStr (resp : List (String × PyVal)) (name : String) : Except PyErr String :=
  match dictGet resp name with
  | some (PyVal.str s) => Except.ok s
  | some _ => Except.error (PyErr.typeError name)
  | Option.none => Except.error (PyErr.typeError name)

/-- Decode a required int field. -/
def reqInt (resp : List (String × PyVal)) (name : String) : Except PyErr Int :=
  match dictGet resp name with
  | some (PyVal.int n) => Except.ok n
  | some _ => Except.error (PyErr.typeError name)
  | Option.none => Except.error (PyErr.typeError name)

/-- Decode a required dict-of-strings field. -/
def reqStrDict (resp : List (String × PyVal)) (name : String) :
    Except PyErr (List (String × String)) :=
  match dictGet resp name with
  | some (PyVal.dict entries) =>
    entries.mapM (fun p =>
      match p.2 with
      | PyVal.str s => Except.ok (p.1, s)
      | _ => Except.error (PyErr.typeError name))
  | some _ => Except.error (PyErr.typeError name)
  | Option.none => Except.error (PyErr.typeError name)

/-- Decode an optional str field whose dataclass default is None. -/
def optStr (resp : List (String × PyVal)) (name : String) :
    Except PyErr (Option String) :=
  match dictGet resp name with
  | some (PyVal.str s) => Except.ok (some s)
  | some PyVal.none => Except.ok Option.none
  | some _ => Except.error (PyErr.typeError name)
  | Option.none => Except.ok Option.none

/-- Decode an optional dict-of-strings field whose default is None. -/
def optStrDict (resp : List (String × PyVal)) (name : String) :
    Except PyErr (Option (List (String × String))) :=
  match dictGet resp name with
  | some (PyVal.dict entries) =>
    Except.map some (entries.mapM (fun p =>
      match p.2 with
      | PyVal.str s => Except.ok (p.1, s)
      | _ => Except.error (PyErr.typeError name)))
  | some PyVal.none => Except.ok Option.none
  | some _ => Except.error (PyErr.typeError name)
  | Option.none => Except.ok Option.none

/-- Decode an optional opaque dict field (data) whose default is None. -/
def optData (resp : List (String × PyVal)) (name : String) :
    Except PyErr (Option (List (String × PyVal))) :=
  match dictGet resp name with
  | some (PyVal.dict entries) => Except.ok (some entries)
  | some PyVal.none => Except.ok Option.none
  | some _ => Except.error (PyErr.typeError name)
  | Option.none => Except.ok Option.none

/-- Decode the type discriminator field, which has a string default. -/
def strWithDefault (resp : List (String × PyVal)) (name dflt : String) :
    Except PyErr String :=
  match dictGet resp name with
  | some (PyVal.str s) => Except.ok s
  | some _ => Except.error (PyErr.typeError name)
  | Option.none => Except.ok dflt

structure EndpointStats where
  name : String
  subject : String
  num_requests : Int
  num_errors : Int
  last_error : String
  processing_time : Int
  average_processing_time : Int
  queue_group : Option String
  data : Option (List (String × PyVal))
  deriving Repr, BEq

/-- EndpointStats.as_dict: field order, None-valued fields skipped. -/
def EndpointStats.as_dict (s : EndpointStats) : List (String × PyVal) :=
  [("name", PyVal.str s.name), ("subject", PyVal.str s.subject),
   ("num_requests", PyVal.int s.num_requests),
   ("num_errors", PyVal.int s.num_errors),
   ("last_error", PyVal.str s.last_error),
   ("processing_time", PyVal.int s.processing_time),
   ("average_processing_time", PyVal.int s.average_processing_time)]
  ++ (match s.queue_group with
      | Option.none => []
      | some qg => [("queue_group", PyVal.str qg)])
  ++ (match s.data with
      | Option.none => []
      | some d => [("data", PyVal.dict d)])

/-- EndpointStats.from_response via Base.from_response: unknown keys are
ignored, missing optional fields default. -/
def EndpointStats.from_response (resp : List (String × PyVal)) :
    Except PyErr EndpointStats := do
  let name ← reqStr resp "name"
  let subject ← reqStr resp "subject"
  let num_requests ← reqInt resp "num_requests"
  let num_errors ← reqInt resp "num_errors"
  let last_error ← reqStr resp "last_error"
  let processing_time ← reqInt resp "processing_time"
  let average_processing_time ← reqInt resp "average_processing_time"
  let queue_group ← optStr resp "queue_group"
  let data ← optData resp "data"
  Except.ok
    { name := name, subject := subject, num_requests := num_requests
      num_errors := num_errors, last_error := last_error
      processing_time := processing_time
      average_processing_time := average_processing_time
      queue_group := queue_group, data := data }

structure EndpointInfo where
  name : String
  subject : String
  metadata : Option (List (String × String))
  queue_group : Option String
  deriving Repr, BEq

def EndpointInfo.as_dict (s : EndpointInfo) : List (String × PyVal) :=
  [("name", PyVal.str s.name), ("subject", PyVal.str s.subject)]
  ++ (match s.metadata with
      | Option.none => []
      | some m => [("metadata", encodeStrDict m)])
  ++ (match s.queue_group with
      | Option.none => []
      | some qg => [("queue_group", PyVal.str qg)])

/-- EndpointInfo.from_response via Base.from_response. -/
def EndpointInfo.from_response (resp : List (String × PyVal)) :
    Except PyErr EndpointInfo := do
  let name ← reqStr resp "name"
  let subject ← reqStr resp "subject"
  let metadata ← optStrDict resp "metadata"
  let queue_group ← optStr resp "queue_group"
  Except.ok { name := name, subject := subject, metadata := metadata
              queue_group := queue_group }

def EndpointInfo.fieldNames : List String :=
  ["name", "subject", "metadata", "queue_group"]

/-- The keyword-argument constructor EndpointInfo(**ep) used by
ServiceInfo.from_response: unlike Base.from_response, an unknown key is an
unexpected keyword argument and raises TypeError. -/
def EndpointInfo.kwargs (ep : List (String × PyVal)) : Except PyErr EndpointInfo :=
  if ep.all (fun p => p.1 ∈ EndpointInfo.fieldNames) then
    EndpointInfo.from_response ep
  else
    Except.error (PyErr.typeError "unexpected keyword argument")

structure ServiceStats where
  name : String
  id : String
  version : String
  started : String
  endpoints : List EndpointStats
  metadata : Option (List (String × String))
  type : String
  deriving Repr, BEq

/-- ServiceStats.as_dict: Base.as_dict in field order with the endpoints
entry replaced by the per-endpoint dicts. -/
def ServiceStats.as_dict (s : ServiceStats) : List (String × PyVal) :=
  [("name", PyVal.str s.name), ("id", PyVal.str s.id),
   ("version", PyVal.str s.version), ("started", PyVal.str s.started),
   ("endpoints", PyVal.list (s.endpoints.map (fun ep => PyVal.dict ep.as_dict)))]
  ++ (match s.metadata with
      | Option.none => []
      | some m => [("metadata", encodeStrDict m)])
  ++ [("type", PyVal.str s.type)]

/-- ServiceStats.from_response: Base.from_response for the flat fields,
then the endpoints are re-decoded elementwise with
EndpointStats.from_response (so unknown keys in nested entries are
ignored as well). -/
def ServiceStats.from_response (resp : List (String × PyVal)) :
    Except PyErr ServiceStats := do
  let name ← reqStr resp "name"
  let id ← reqStr resp "id"
  let version ← reqStr resp "version"
  let started ← reqStr resp "started"
  let metadata ← optStrDict resp "metadata"
  let ty ← strWithDefault resp "type" "io.nats.micro.v1.stats_response"
  match dictGet resp "endpoints" with
  | some (PyVal.list es) =>
    let endpoints ← es.mapM (fun e =>
      match e with
      | PyVal.dict d => EndpointStats.from_response d
      | _ => Except.error (PyErr.typeError "endpoints"))
    Except.ok { name := name, id := id, version := version, started := started
                endpoints := endpoints, metadata := metadata, type := ty }
  | some _ => Except.error (PyErr.typeError "endpoints")
  | Option.none => Except.error (PyErr.typeError "endpoints")

structure ServiceInfo where
  name : String
  id : String
  version : String
  description : String
  metadata : List (String × String)
  endpoints : List EndpointInfo
  type : String
  deriving Repr, BEq

def ServiceInfo.as_dict (s : ServiceInfo) : List (String × PyVal) :=
  [("name", PyVal.str s.name), ("id", PyVal.str s.id),
   ("version", PyVal.str s.version), ("description", PyVal.str s.description),
   ("metadata", encodeStrDict s.metadata),
   ("endpoints", PyVal.list (s.endpoints.map (fun ep => PyVal.dict ep.as_dict))),
   ("type", PyVal.str s.type)]

/-- ServiceInfo.from_response: Base.from_response for the flat fields,
then the endpoints are rebuilt with the keyword constructor
EndpointInfo(**ep), which raises TypeError on an unknown key. -/
def ServiceInfo.from_response (resp : List (String × PyVal)) :
    Except PyErr ServiceInfo := do
  let name ← reqStr resp "name"
  let id ← reqStr resp "id"
  let version ← reqStr resp "version"
  let description ← reqStr resp "description"
  let metadata ← reqStrDict resp "metadata"
  let ty ← strWithDefault resp "type" "io.nats.micro.v1.info_response"
  match dictGet resp "endpoints" with
  | some (PyVal.list es) =>
    let endpoints ← es.mapM (fun e =>
      match e with
      | PyVal.dict d => EndpointInfo.kwargs d
      | _ => Except.error (PyErr.typeError "endpoints"))
    Except.ok { name := name, id := id, version := version
                description := description, metadata := metadata
                endpoints := endpoints, type := ty }
  | some _ => Except.error (PyErr.typeError "endpoints")
  | Option.none => Except.error (PyErr.typeError "endpoints")

structure PingInfo where
  name : String
  id : String
  version : String
  metadata : List (String × String)
  type : String
  deriving Repr, BEq

def PingInfo.as_dict (s : PingInfo) : List (String × PyVal) :=
  [("name", PyVal.str s.name), ("id", PyVal.str s.id),
   ("version", PyVal.str s.version),
   ("metadata", encodeStrDict s.metadata),
   ("type", PyVal.str s.type)]

/-- PingInfo.from_response via Base.from_response. -/
def PingInfo.from_response (resp : List (String × PyVal)) :
    Except PyErr PingInfo := do
  let name ← reqStr resp "name"
  let id ← reqStr resp "id"
  let version ← reqStr resp "version"
  let metadata ← reqStrDict resp "metadata"
  let ty ← strWithDefault resp "type" "io.nats.micro.v1.ping_response"
  Except.ok { name := name, id := id, version := version, metadata := metadata
              type := ty }

end Models

/-! ## nats_contrib/micro/client: point-to-point request

The ServiceError shape is embedded from client/errors.py. The request
method lives in client/client.py, which is not part of the snapshot (the
package init imports Client from it and shadows the legacy flat client.py
module at import time), so its decision logic is modelled from the spec.
-/

namespace MicroClient

/-- ServiceError from client/errors.py: code, description, subject, raw
data and headers of the response. -/
structure ServiceError where
  code : Int
  description : String
  subject : String
  data : String
  headers : List (String × String)
  deriving Repr, BEq, DecidableEq

/-- A received response message: payload bytes (as a byte string) and
headers. -/
structure ResponseMsg where
  data : String
  headers : List (String × String)
  deriving Repr, BEq, DecidableEq

/-- Model of int() applied to the decimal header value. -/
def pyIntOfString (s : String) : Int := (s.toInt?).getD 0

/-- Modelled from the spec: Client.request of client/client.py is missing
from the snapshot. Per the spec, the client awaits a single response and,
if the response carries the Nats-Service-Error-Code header, raises a
service error carrying code, description, subject, raw data and headers;
otherwise it returns the response data. -/
def Client.request (subject : String) (response : ResponseMsg) :
    Except ServiceError String :=
  match dictGet response.headers "Nats-Service-Error-Code" with
  | some code =>
    Except.error
      { code := pyIntOfString code
        description := (dictGet response.headers "Nats-Service-Error").getD ""
        subject := subject
        data := response.data
        headers := response.headers }
  | Option.none => Except.ok response.data

end MicroClient

/-! ## nats_contrib/micro/request_many.py: batch and iterator collection

The concurrent callback plus event plus unsubscribe dance is modelled by
its sequential semantics: inbound replies are processed in arrival order
until a termination condition fires.
-/

namespace RequestMany

structure Msg where
  subject : String
  data : String
  headers : List (String × String)
  deriving Repr, BEq, DecidableEq

/-- The callback of request_many, folded over the replies that arrive
before a termination condition fires: a reply with empty body sets the
stop event without being appended when stop_on_sentinel is set; otherwise
the reply is appended, and reaching max_count sets the stop event (None
and 0 never equal a positive length). acc is the number of responses
already collected. -/
def collectResponses (stop_on_sentinel : Bool) (max_count : Option Nat)
    (acc : Nat) : List Msg → List Msg
  | [] => []
  | m :: rest =>
    if stop_on_sentinel ∧ m.data = "" then []
    else if max_count = some (acc + 1) then [m]
    else m :: collectResponses stop_on_sentinel max_count (acc + 1) rest

/-- Python truthiness guard on max_count in RequestManyIterator:
the count check only fires when max_count is set and nonzero. -/
def maxCountReached (max_count : Option Nat) (total_received : Nat) : Bool :=
  match max_count with
  | some c => c != 0 && total_received == c
  | Option.none => false

/-- RequestManyIterator.__anext__, iterated: before awaiting a message the
iterator stops when max_count messages have been received; after a message
arrives the total is incremented, and when stop_on_sentinel is set and the
message subject equals the literal sentinel subject, iteration stops
without yielding the message. -/
def RequestManyIterator.yielded (stop_on_sentinel : Bool)
    (max_count : Option Nat) (total_received : Nat) : List Msg → List Msg
  | [] => []
  | m :: rest =>
    if maxCountReached max_count total_received then []
    else if stop_on_sentinel ∧ m.subject = "sentinel" then []
    else m :: RequestManyIterator.yielded stop_on_sentinel max_count
      (total_received + 1) rest

end RequestMany

/-! ## nats_contrib/micro/middleware.py: the middleware chain

Handlers are modelled by their interaction with the respond method of the
request they receive: a HandlerRun lists the respond calls the handler
makes and the exception it raises, if any. Middlewares are modelled as
pure response transformers (they receive the request and the next handler
and return the response of that handler, possibly transformed); they cannot
publish directly, which covers the code paths the claim is about.
-/

namespace Middleware

structure Request where
  subject : String
  headers : List (String × String)
  data : String
  reply : Option String
  deriving Repr, BEq, DecidableEq

structure Response where
  origin : Request
  data : String
  headers : List (String × String)
  deriving Repr, BEq, DecidableEq

/-- Behavior of one handler invocation against the request it receives:
the respond calls made (data and headers), and the exception raised after
them, if any. -/
structure HandlerRun where
  responds : List (String × List (String × String))
  raises : Option PyErr
  deriving Repr

def Handler : Type := Request → HandlerRun

def NextHandler : Type := Request → Except PyErr Response

def MiddlewareFn : Type := Request → NextHandler → Except PyErr Response

structure PubMsg where
  subject : String
  data : String
  headers : List (String × String)
  deriving Repr, BEq, DecidableEq

/-- Dispatch of a bare handler on the real request: each respond call
publishes to the reply subject when one is set and is dropped otherwise;
an exception propagates to the caller. -/
def runHandlerReal (h : Handler) (req : Request) : List PubMsg × Option PyErr :=
  (match req.reply with
   | some r => (h req).responds.map (fun p =>
      { subject := r, data := p.1, headers := p.2 })
   | Option.none => [],
   (h req).raises)

/-- The terminal forward handler built by _create_next_handler: the user
handler runs against a _CapturedRequest whose respond records the last
response instead of publishing; get_response raises ValueError when the
handler never responded. -/
def _create_next_handler (h : Handler) : NextHandler := fun request =>
  match (h request).raises with
  | some e => Except.error e
  | Option.none =>
    match (h request).responds.getLast? with
    | some p => Except.ok { origin := request, data := p.1, headers := p.2 }
    | Option.none => Except.error (PyErr.valueError "No response was set")

def _chain_next_handler_and_middleware (handler : NextHandler)
    (middleware : MiddlewareFn) : NextHandler :=
  fun request => middleware request handler

/-- Chain middlewares around a next handler, the first middleware
outermost (the source iterates the reversed list). -/
def _apply_middlewares_to_next_handler (handler : NextHandler)
    (middlewares : List MiddlewareFn) : NextHandler :=
  middlewares.foldr
    (fun mw acc => _chain_next_handler_and_middleware acc mw) handler

/-- The final unwrapping handler built by _create_final_handler: it runs
the chain and publishes the captured response on the reply subject of the
response origin; an exception from the chain propagates. -/
def _create_final_handler (forward : NextHandler) (request : Request) :
    List PubMsg × Option PyErr :=
  match forward request with
  | Except.ok response =>
    (match response.origin.reply with
     | some r => [{ subject := r, data := response.data,
                    headers := response.headers }]
     | Option.none => [], Option.none)
  | Except.error e => ([], some e)

/-- apply_middlewares: with an empty list the handler is returned
unchanged; otherwise the handler is wrapped into the captured chain. The
result is the publication trace of one dispatch together with the
exception escaping to the service wrapper, if any. -/
def apply_middlewares (h : Handler) (middlewares : List MiddlewareFn)
    (request : Request) : List PubMsg × Option PyErr :=
  if middlewares.isEmpty then runHandlerReal h request
  else _create_final_handler
    (_apply_middlewares_to_next_handler (_create_next_handler h) middlewares)
    request

/-- The generic 500 error reply published by Service._create_handler via
respond_error when the dispatched handler raises. -/
def errorReply500 (replySubject : String) : PubMsg :=
  { subject := replySubject, data := ""
    headers := [("Nats-Service-Error", "Internal Server Error"),
                ("Nats-Service-Error-Code", "500")] }

/-- Publications of one request dispatched through the service-level
wrapper of Service._create_handler: on an escaping exception the wrapper
replies with the generic 500 service error (published only when the
request has a reply subject). -/
def serviceDispatchPublished
    (wrapped : Request → List PubMsg × Option PyErr) (req : Request) :
    List PubMsg :=
  match wrapped req with
  | (pubs, Option.none) => pubs
  | (pubs, some _) =>
    pubs ++ (match req.reply with
             | some r => [errorReply500 r]
             | Option.none => [])

end Middleware

/-! ## nats_contrib/asyncapi/backends/micro.py: typed operation dispatch

Exception classes are modelled as a chain of bases rooted at Exception;
isinstance follows the base chain. The catch table declared on the
operation is collapsed into a dict keyed by origin (first occurrence
keeps the position, the last entry for a key wins, as in the Python dict
comprehension) and the handler replies with the first entry whose origin
matches the raised value by isinstance; an unmatched exception is
re-raised into the service wrapper, which replies with the generic 500.
-/

namespace AsyncApi

inductive ExcType where
  | exception
  | derived (name : String) (base : ExcType)
  deriving Repr, DecidableEq

/-- isinstance(e, t) on exception classes: type identity or a base-chain
step. -/
def ExcType.isSubclassOf : ExcType → ExcType → Bool
  | ExcType.exception, u => ExcType.exception == u
  | ExcType.derived n b, u => (ExcType.derived n b == u) || b.isSubclassOf u

/-- A raised exception value: its class and its str() form. -/
structure Exc where
  ty : ExcType
  msg : String
  deriving Repr

/-- One entry of the operation catch table: origin class, reply code and
description, and the optional formatter producing the error payload. -/
structure CatchEntry where
  origin : ExcType
  code : Int
  description : String
  fmt : Option (Exc → String)

/-- The dict comprehension errors_to_catch built from the catch table. -/
def buildCatchDict (catchEntries : List CatchEntry) :
    List (ExcType × CatchEntry) :=
  catchEntries.foldl (fun d e => dictInsert d e.origin e) []

/-- Payload of a typed error reply: the formatter output encoded by the
error type adapter when a formatter is set and its output is truthy,
otherwise the empty body. -/
def errorPayload (entry : CatchEntry) (encode : String → String) (e : Exc) :
    String :=
  match entry.fmt with
  | some f => if f e = "" then "" else encode (f e)
  | Option.none => ""

/-- The except-path of the add_operation handler: iterate the keys of
errors_to_catch in order and reply with the first entry whose origin
matches the raised value by isinstance; none means the exception is
re-raised. -/
def operationCatch (catchEntries : List CatchEntry) (encode : String → String)
    (e : Exc) : Option (Int × String × String) :=
  (buildCatchDict catchEntries).findSome? (fun p =>
    if e.ty.isSubclassOf p.1 then
      some (p.2.code, p.2.description, errorPayload p.2 encode e)
    else Option.none)

/-- Error reply (code, description, payload) for an exception raised by a
typed operation handler: the catch-table reply, or the generic 500 reply
produced by the service-level wrapper when the exception is re-raised. -/
def typedErrorReply (catchEntries : List CatchEntry) (encode : String → String)
    (e : Exc) : Int × String × String :=
  match operationCatch catchEntries encode e with
  | some r => r
  | Option.none => (500, "Internal Server Error", "")

/-- Reference dispatch following the claim words, for comparison with the
embedded one: the first entry of the declared catch table whose
error_origin matches the thrown value by type identity determines the
reply; an exception matching no entry yields the generic 500. -/
def specTypeIdentityReply (catchEntries : List CatchEntry)
    (encode : String → String) (e : Exc) : Int × String × String :=
  match catchEntries.findSome? (fun entry =>
    if entry.origin == e.ty then
      some (entry.code, entry.description, errorPayload entry encode e)
    else Option.none) with
  | some r => r
  | Option.none => (500, "Internal Server Error", "")

end AsyncApi

/-! ## nats_contrib/micro/typedsdk/address.py: address templates

Python strings are modelled as lists of characters. The regex
\x7b(.*?)\x7d used by finditer is matched directly: at an opening brace a
lazy match extends to the first closing brace. Recursions that consume a
variable number of characters per step carry an explicit fuel, initialized
to the string length, which bounds the number of steps the Python loop can
make.
-/

namespace Address

def MATCH_ALL : List Char := ['>']

def MATCH_ONE : List Char := ['*']

def strReplaceFuel (fuel : Nat) (s pat rep : List Char) : List Char :=
  match fuel with
  | 0 => s
  | fuel + 1 =>
    match s with
    | [] => []
    | c :: rest =>
      if pat ≠ [] ∧ pat.isPrefixOf s then
        rep ++ strReplaceFuel fuel (s.drop pat.length) pat rep
      else c :: strReplaceFuel fuel rest pat rep

/-- Python str.replace: replace every non-overlapping occurrence of pat,
scanning left to right (pat is never empty in the embedded code). -/
def strReplace (s pat rep : List Char) : List Char :=
  strReplaceFuel s.length s pat rep

/-- Python str.split on the dot separator. -/
def splitDot : List Char → List (List Char)
  | [] => [[]]
  | c :: rest =>
    if c = '.' then [] :: splitDot rest
    else
      match splitDot rest with
      | t :: ts => (c :: t) :: ts
      | [] => [[c]]

/-- Python dot.join. -/
def joinDot : List (List Char) → List Char
  | [] => []
  | [t] => t
  | t :: ts => t ++ '.' :: joinDot ts

/-- Python list.index: position of the first occurrence, or ValueError. -/
def listIndex {α : Type} [BEq α] (l : List α) (x : α) : Except PyErr Nat :=
  match l.findIdx? (fun y => y == x) with
  | some i => Except.ok i
  | Option.none => Except.error (PyErr.valueError "is not in list")

/-- Index of the first closing brace, if any. -/
def findBraceClose : List Char → Option Nat
  | [] => Option.none
  | c :: rest =>
    if c = '}' then some 0 else (findBraceClose rest).map (fun i => i + 1)

/-- Spans (start, stop) of the non-overlapping lazy brace matches found by
pattern.finditer, scanning left to right. -/
def findPlaceholdersFuel (fuel : Nat) (s : List Char) (pos : Nat) :
    List (Nat × Nat) :=
  match fuel with
  | 0 => []
  | fuel + 1 =>
    match s with
    | [] => []
    | c :: rest =>
      if c = '{' then
        match findBraceClose rest with
        | some j =>
          (pos, pos + j + 2) ::
            findPlaceholdersFuel fuel (rest.drop (j + 1)) (pos + j + 2)
        | Option.none => findPlaceholdersFuel fuel rest (pos + 1)
      else findPlaceholdersFuel fuel rest (pos + 1)

def findPlaceholders (s : List Char) : List (Nat × Nat) :=
  findPlaceholdersFuel s.length s 0

/-- Placeholders of an address: the sanitized subject and the positions
of the single-token placeholders and of the terminal multi-token
wildcard. The typ field of the Python dataclass (the parameters class) is
dropped; extract_parameters returns the keyword arguments it would pass
to that class. -/
structure Placeholders where
  subject : List Char
  mapping : List (List Char × Nat)
  wildcard : Option (List Char × Nat)
  deriving Repr, BEq, DecidableEq

structure FromSubjectState where
  sanitized : List Char
  is_wildcard : Bool
  mapping : List (List Char × Nat)
  wildcard : Option (List Char × Nat)
  deriving Repr

def dots : List Char := ['.', '.', '.']

/-- One iteration of the match loop of Placeholders.from_subject for the
span (start, stop) of one brace match. -/
def processMatch (subject : List Char) (st : FromSubjectState)
    (span : Nat × Nat) : Except PyErr FromSubjectState := do
  let placeholder := (subject.drop span.1).take (span.2 - span.1)
  let name0 := (placeholder.drop 1).dropLast
  let (st1, name) ←
    if dots.isSuffixOf name0 ∧ name0.length ≥ 3 then
      if st.is_wildcard then
        Except.error (PyErr.valueError "Only one match_all wildcard is allowed")
      else
        Except.ok
          ({ st with sanitized := strReplace st.sanitized placeholder MATCH_ALL
                     is_wildcard := true },
           name0.take (name0.length - 3))
    else
      Except.ok
        ({ st with sanitized := strReplace st.sanitized placeholder MATCH_ONE },
         name0)
  if name = [] then
    Except.error (PyErr.valueError "Placeholder cannot be empty")
  else if '.' ∈ name then
    Except.error (PyErr.valueError "Invalid placeholder name: Contains separator")
  else
    let next_char : Option Char := subject.get? span.2
    let previous_char : Option Char :=
      if span.1 ≠ 0 then subject.get? (span.1 - 1) else Option.none
    match previous_char with
    | some c =>
      if c ≠ '.' then
        Except.error (PyErr.valueError "Placeholder must occupy whole token")
      else Except.ok ()
    | Option.none => Except.ok ()
    match next_char with
    | some c =>
      if c ≠ '.' then
        Except.error (PyErr.valueError "Placeholder must occupy whole token")
      else Except.ok ()
    | Option.none => Except.ok ()
    let pos ← listIndex (splitDot (strReplace subject dots MATCH_ONE))
      (strReplace placeholder dots MATCH_ALL)
    if st1.is_wildcard then
      Except.ok { st1 with wildcard := some (name, pos) }
    else
      Except.ok { st1 with mapping := dictInsert st1.mapping name pos }

/-- Placeholders.from_subject: iterate the matches found over the original
subject, sanitizing the subject and collecting placeholder positions. -/
def Placeholders.from_subject (subject : List Char) :
    Except PyErr Placeholders := do
  let init : FromSubjectState :=
    { sanitized := subject, is_wildcard := false, mapping := []
      wildcard := Option.none }
  let st ← (findPlaceholders subject).foldlM (processMatch subject) init
  Except.ok { subject := st.sanitized, mapping := st.mapping
              wildcard := st.wildcard }

inductive ParamValue where
  | tok (t : List Char)
  | toks (ts : List (List Char))
  deriving Repr, BEq, DecidableEq

/-- Address.get_subject for a parameter value: substitute each mapped
field into its token position, substitute the head of the wildcard field
values at the wildcard position and append the remaining values. pget
gives the value of each single-token field and pwild the values of the
wildcard field. -/
def Placeholders.get_subject (p : Placeholders)
    (pget : List Char → List Char) (pwild : List (List Char)) : List Char :=
  let tokens := splitDot p.subject
  let tokens := p.mapping.foldl (fun ts pr => ts.set pr.2 (pget pr.1)) tokens
  let tokens :=
    match p.wildcard with
    | some pr => (tokens.set pr.2 (pwild.headD [])) ++ pwild.tail
    | Option.none => tokens
  joinDot tokens

/-- Placeholders.extract_parameters: the keyword arguments passed to the
parameters class, read off the split subject. -/
def Placeholders.extract_parameters (p : Placeholders) (subject : List Char) :
    List (List Char × ParamValue) :=
  let tokens := splitDot subject
  (p.mapping.map (fun pr => (pr.1, ParamValue.tok (tokens.getD pr.2 []))))
  ++ (match p.wildcard with
      | some pr => [(pr.1, ParamValue.toks (tokens.drop pr.2))]
      | Option.none => [])

end Address

/-! ## Field name lists of the monitoring models

The dataclass field names of each model, used to state that a response
key is unknown (not a declared field). -/

namespace Models

def pingInfoFields : List String := ["name", "id", "version", "metadata", "type"]

def endpointStatsFields : List String :=
  ["name", "subject", "num_requests", "num_errors", "last_error",
   "processing_time", "average_processing_time", "queue_group", "data"]

def endpointInfoFields : List String := EndpointInfo.fieldNames

def serviceStatsFields : List String :=
  ["name", "id", "version", "started", "endpoints", "metadata", "type"]

def serviceInfoFields : List String :=
  ["name", "id", "version", "description", "metadata", "endpoints", "type"]

/-- The encoded response of a ServiceStats with unknown keys spliced in:
junkTop is appended at the top level and junkEp inside every encoded
endpoint entry. With both empty this is exactly ServiceStats.as_dict. -/
def ServiceStats.encodedWithUnknownKeys (s : ServiceStats)
    (junkTop junkEp : List (String × PyVal)) : List (String × PyVal) :=
  [("name", PyVal.str s.name), ("id", PyVal.str s.id),
   ("version", PyVal.str s.version), ("started", PyVal.str s.started),
   ("endpoints", PyVal.list (s.endpoints.map
     (fun ep => PyVal.dict (ep.as_dict ++ junkEp))))]
  ++ (match s.metadata with
      | Option.none => []
      | some m => [("metadata", encodeStrDict m)])
  ++ [("type", PyVal.str s.type)] ++ junkTop

end Models

/-! ## Concrete instances used by witnesses and counterexamples -/

namespace Examples

/-- A concrete service configuration. -/
def svcEx : Api.ServiceConfig :=
  { name := "test-service", version := "1.0.0", description := "demo"
    metadata := [], queue_group := Api.DEFAULT_QUEUE_GROUP
    pending_msgs_limit_by_endpoint := Api.DEFAULT_SUB_PENDING_MSGS_LIMIT
    pending_bytes_limit_by_endpoint := Api.DEFAULT_SUB_PENDING_BYTES_LIMIT }

/-- A concrete group configuration. -/
def grpEx : Api.GroupConfig :=
  { name := "group1", queue_group := "q1"
    pending_msgs_limit_by_endpoint := 256
    pending_bytes_limit_by_endpoint := 1024 }

/-- A concrete endpoint configuration (handler modelled by Unit). -/
def cfgEx : Api.EndpointConfig Unit :=
  { name := "echo", subject := "ECHO", handler := ()
    queue_group := "q", metadata := []
    pending_msgs_limit := Api.DEFAULT_SUB_PENDING_MSGS_LIMIT
    pending_bytes_limit := Api.DEFAULT_SUB_PENDING_BYTES_LIMIT }

/-- A request with a reply subject. -/
def reqEx : Middleware.Request :=
  { subject := "svc.echo", headers := [], data := "hi"
    reply := some "inbox.1" }

/-- A handler that returns without ever calling respond. -/
def hNoRespond : Middleware.Handler := fun _ =>
  { responds := [], raises := Option.none }

/-- A middleware that forwards the request to the next handler and
returns its response unchanged. -/
def mwPass : Middleware.MiddlewareFn := fun r nh => nh r

/-- The built-in ValueError class. -/
def excValueError : AsyncApi.ExcType :=
  AsyncApi.ExcType.derived "ValueError" AsyncApi.ExcType.exception

/-- A user-defined subclass of ValueError. -/
def excCustom : AsyncApi.ExcType :=
  AsyncApi.ExcType.derived "MyCustomError" excValueError

/-- A catch table with a single ValueError entry. -/
def catchEx : List AsyncApi.CatchEntry :=
  [{ origin := excValueError, code := 400, description := "Bad request"
     fmt := Option.none }]

/-- An exception value of the subclass type. -/
def raisedEx : AsyncApi.Exc := { ty := excCustom, msg := "boom" }

/-- A ServiceInfo response dict whose nested endpoint entry carries one
unknown key. -/
def infoRespEx : List (String × PyVal) :=
  [("name", PyVal.str "svc"), ("id", PyVal.str "abc123"),
   ("version", PyVal.str "1.0.0"), ("description", PyVal.str "demo"),
   ("metadata", PyVal.dict []),
   ("endpoints", PyVal.list
     [PyVal.dict [("name", PyVal.str "echo"), ("subject", PyVal.str "ECHO"),
                  ("extra_key", PyVal.str "surprise")]]),
   ("type", PyVal.str "io.nats.micro.v1.info_response")]

/-- The endpoint entry of infoRespEx alone. -/
def endpointEntryEx : List (String × PyVal) :=
  [("name", PyVal.str "echo"), ("subject", PyVal.str "ECHO"),
   ("extra_key", PyVal.str "surprise")]

/-- The endpoint info encoded inside infoRespEx. -/
def epInfoEx : Models.EndpointInfo :=
  { name := "echo", subject := "ECHO", metadata := Option.none
    queue_group := Option.none }

/-- The ServiceInfo whose encoding, with one unknown key added inside the
endpoint entry, is infoRespEx. -/
def siEx : Models.ServiceInfo :=
  { name := "svc", id := "abc123", version := "1.0.0", description := "demo"
    metadata := [], endpoints := [epInfoEx]
    type := "io.nats.micro.v1.info_response" }

/-- Concrete monitoring model instances for the round-trip witness. -/
def pingEx : Models.PingInfo :=
  { name := "svc", id := "abc123", version := "1.0.0"
    metadata := [("region", "eu")], type := "io.nats.micro.v1.ping_response" }

def epStatsEx : Models.EndpointStats :=
  { name := "echo", subject := "ECHO", num_requests := 3, num_errors := 1
    last_error := "ValueError", processing_time := 900
    average_processing_time := 300, queue_group := some "q"
    data := Option.none }

def svcStatsEx : Models.ServiceStats :=
  { name := "svc", id := "abc123", version := "1.0.0"
    started := "2024-01-01T00:00:00+00:00", endpoints := [epStatsEx]
    metadata := Option.none, type := "io.nats.micro.v1.stats_response" }

/-- An unknown key entry. -/
def junkEx : List (String × PyVal) := [("extra_key", PyVal.str "surprise")]

/-- A response carrying the service error headers. -/
def respErrEx : MicroClient.ResponseMsg :=
  { data := "oops"
    headers := [("Nats-Service-Error-Code", "500"),
                ("Nats-Service-Error", "Internal Server Error")] }

/-- A response without error headers. -/
def respOkEx : MicroClient.ResponseMsg :=
  { data := "fine", headers := [("Content-Type", "text/plain")] }

/-- An ordinary reply message. -/
def msgA : RequestMany.Msg :=
  { subject := "inbox.1", data := "reply-1", headers := [] }

/-- A second ordinary reply message. -/
def msgB : RequestMany.Msg :=
  { subject := "inbox.1", data := "reply-2", headers := [] }

/-- A reply with empty body (the batch sentinel). -/
def msgEmpty : RequestMany.Msg :=
  { subject := "inbox.1", data := "", headers := [] }

/-- A reply on the sentinel subject (the iterator sentinel). -/
def msgSent : RequestMany.Msg :=
  { subject := "sentinel", data := "reply-3", headers := [] }

/-- The template from the Address docstring, with a terminal wildcard
placeholder. -/
def templateEx : List Char := "foo.\x7bbar\x7d.baz.\x7bqux...\x7d".data

/-- The same template without the wildcard part. -/
def templateNoWild : List Char := "foo.\x7bbar\x7d".data

end Examples

/-! ## Properties of the float-division model -/

theorem roundHalfEven_sub_abs_le (x : ℚ) : |(roundHalfEven x : ℚ) - x| ≤ 1 / 2 := by
  have h0 : (⌊x⌋ : ℚ) ≤ x := Int.floor_le x
  have h1 : x < ⌊x⌋ + 1 := Int.lt_floor_add_one x
  rw [roundHalfEven]
  split_ifs with hc1 hc2 hc3 <;> rw [abs_le] <;> push_cast <;> constructor <;> linarith

theorem roundHalfEven_intCast (n : ℤ) : roundHalfEven (n : ℚ) = n := by
  rw [roundHalfEven, Int.floor_intCast]
  norm_num

theorem roundDouble_sub_abs_le {q : ℚ} (hq : 0 < q) :
    |roundDouble q - q| ≤ 2 ^ (Int.log 2 q - 53) := by
  rw [roundDouble, if_pos hq]
  set e := Int.log 2 q with he
  set s : ℚ := 2 ^ ((52 : ℤ) - e) with hs
  set t : ℚ := 2 ^ (e - (52 : ℤ)) with ht
  have hst : s * t = 1 := by
    rw [hs, ht, ← zpow_add₀ (by norm_num : (2 : ℚ) ≠ 0)]
    norm_num
  have ht0 : 0 < t := by rw [ht]; positivity
  have hm := roundHalfEven_sub_abs_le (q * s)
  have expand : (roundHalfEven (q * s) : ℚ) * t - q
      = ((roundHalfEven (q * s) : ℚ) - q * s) * t := by
    rw [sub_mul, mul_assoc, hst, mul_one]
  rw [expand, abs_mul, abs_of_pos ht0]
  have h253 : (2 : ℚ) ^ (e - 53) = (1 / 2) * t := by
    rw [ht, show (1 / 2 : ℚ) = 2 ^ (-1 : ℤ) by norm_num,
      ← zpow_add₀ (by norm_num : (2 : ℚ) ≠ 0)]
    ring_nf
  rw [h253]
  exact mul_le_mul_of_nonneg_right hm (le_of_lt ht0)

theorem roundDouble_intCast {k : ℤ} (h1 : 1 ≤ k) (h2 : k < 2 ^ 53) :
    roundDouble (k : ℚ) = (k : ℚ) := by
  have hq : (0 : ℚ) < (k : ℚ) := by exact_mod_cast lt_of_lt_of_le zero_lt_one h1
  rw [roundDouble, if_pos hq]
  set e := Int.log 2 (k : ℚ) with he
  have he0 : 0 ≤ e := by
    rw [he, ← Int.zpow_le_iff_le_log (by norm_num) hq]
    have : ((2 : ℕ) : ℚ) ^ (0 : ℤ) = 1 := by norm_num
    rw [this]
    exact_mod_cast h1
  have he52 : e ≤ 52 := by
    have h53 : e < 53 := by
      rw [he, ← Int.lt_zpow_iff_log_lt (by norm_num) hq]
      have hcast : ((2 : ℕ) : ℚ) ^ (53 : ℤ) = ((2 ^ 53 : ℤ) : ℚ) := by
        push_cast
        norm_num
      rw [hcast]
      exact_mod_cast h2
    omega
  obtain ⟨j, hj⟩ : ∃ j : ℕ, (52 : ℤ) - e = (j : ℤ) := ⟨(52 - e).toNat, by omega⟩
  have hscaled : (k : ℚ) * (2 : ℚ) ^ ((52 : ℤ) - e) = ((k * 2 ^ j : ℤ) : ℚ) := by
    rw [hj, zpow_natCast]
    push_cast
    ring
  rw [hscaled, roundHalfEven_intCast]
  push_cast
  rw [mul_assoc]
  have hone : (2 : ℚ) ^ (j : ℕ) * (2 : ℚ) ^ (e - (52 : ℤ)) = 1 := by
    rw [← zpow_natCast (2 : ℚ) j, ← hj, ← zpow_add₀ (by norm_num : (2 : ℚ) ≠ 0)]
    norm_num
  rw [hone, mul_one]

theorem pyTrueDiv_eq_div {a n : ℕ} (hn : 1 ≤ n) (ha : a < 2 ^ 53) :
    pyInt (pyTrueDiv (a : ℤ) (n : ℤ)) = ((a / n : ℕ) : ℤ) := by
  rcases Nat.eq_zero_or_pos a with ha0 | hapos
  · subst ha0
    simp [pyTrueDiv, roundDouble, pyInt, Nat.zero_div]
  have hn0 : (0 : ℚ) < (n : ℚ) := by exact_mod_cast hn
  have ha0q : (0 : ℚ) < (a : ℚ) := by exact_mod_cast hapos
  have hq : (0 : ℚ) < (a : ℚ) / (n : ℚ) := by positivity
  have hcastdiv : ((a : ℤ) : ℚ) / ((n : ℤ) : ℚ) = (a : ℚ) / (n : ℚ) := by push_cast; ring
  have hdm : n * (a / n) + a % n = a := Nat.div_add_mod a n
  have hrn : a % n < n := Nat.mod_lt a (by omega)
  rcases Nat.eq_zero_or_pos (a % n) with hr0 | hrpos
  · -- the division is exact: the quotient is an integer below 2 ^ 53
    have hdvd : n ∣ a := Nat.dvd_of_mod_eq_zero hr0
    have hkmul : a / n * n = a := Nat.div_mul_cancel hdvd
    have hkq : (a : ℚ) / (n : ℚ) = ((a / n : ℕ) : ℚ) := by
      rw [div_eq_iff (ne_of_gt hn0)]
      exact_mod_cast hkmul.symm
    have hk1 : 1 ≤ ((a / n : ℕ) : ℤ) := by
      have h1 : 0 < a / n := by
        rcases Nat.eq_zero_or_pos (a / n) with h | h
        · rw [h, Nat.zero_mul] at hkmul
          omega
        · exact h
      exact_mod_cast h1
    have hk53 : ((a / n : ℕ) : ℤ) < 2 ^ 53 := by
      have h1 : a / n ≤ a := Nat.div_le_self a n
      have h2 : ((a : ℤ)) < 2 ^ 53 := by exact_mod_cast ha
      have h3 : ((a / n : ℕ) : ℤ) ≤ (a : ℤ) := by exact_mod_cast h1
      linarith
    rw [pyTrueDiv, hcastdiv, hkq,
      show (((a / n : ℕ) : ℚ)) = ((((a / n : ℕ) : ℤ)) : ℚ) from
        (Int.cast_natCast (a / n)).symm,
      roundDouble_intCast hk1 hk53, pyInt]
    rw [if_neg (not_lt.mpr (by positivity))]
    rw [Int.floor_intCast]
  · -- inexact division: the rounded quotient stays in the right unit interval
    set q : ℚ := (a : ℚ) / (n : ℚ) with hqdef
    set e := Int.log 2 q with he
    have hlb : ((2 : ℕ) : ℚ) ^ e ≤ q := Int.zpow_log_le_self (by norm_num) hq
    have hq_eq : q = ((a / n : ℕ) : ℚ) + ((a % n : ℕ) : ℚ) / (n : ℚ) := by
      rw [hqdef, show (a : ℚ) = (n : ℚ) * ((a / n : ℕ) : ℚ) + ((a % n : ℕ) : ℚ) by
        exact_mod_cast hdm.symm]
      field_simp
      ring
    have hq_lb : ((a / n : ℕ) : ℚ) + 1 / (n : ℚ) ≤ q := by
      rw [hq_eq]
      have h1 : (1 : ℚ) ≤ ((a % n : ℕ) : ℚ) := by exact_mod_cast hrpos
      gcongr
    have hq_ub : q + 1 / (n : ℚ) ≤ ((a / n : ℕ) : ℚ) + 1 := by
      rw [hq_eq]
      have hr1 : ((a % n : ℕ) : ℚ) + 1 ≤ (n : ℚ) := by exact_mod_cast hrn
      have hdivle : (((a % n : ℕ) : ℚ) + 1) / (n : ℚ) ≤ 1 := by
        rw [div_le_one hn0]
        exact hr1
      have : ((a % n : ℕ) : ℚ) / (n : ℚ) + 1 / (n : ℚ)
          = (((a % n : ℕ) : ℚ) + 1) / (n : ℚ) := by ring
      linarith [this, hdivle]
    have hdev := roundDouble_sub_abs_le hq
    rw [← he] at hdev
    have hsmall : (2 : ℚ) ^ (e - 53) < 1 / (n : ℚ) := by
      have hq53 : q < (2 : ℚ) ^ (53 : ℤ) / (n : ℚ) := by
        rw [hqdef]
        have hnum : (a : ℚ) < (2 : ℚ) ^ (53 : ℤ) := by
          rw [show ((53 : ℤ)) = ((53 : ℕ) : ℤ) by norm_num, zpow_natCast]
          exact_mod_cast ha
        gcongr
      have h2e : (2 : ℚ) ^ e < (2 : ℚ) ^ (53 : ℤ) / (n : ℚ) := by
        have hcast2 : ((2 : ℕ) : ℚ) = (2 : ℚ) := by norm_num
        rw [hcast2] at hlb
        linarith
      have hmul : (2 : ℚ) ^ e * (n : ℚ) < (2 : ℚ) ^ (53 : ℤ) :=
        (lt_div_iff hn0).mp h2e
      rw [zpow_sub₀ (by norm_num : (2 : ℚ) ≠ 0), div_lt_div_iff (by positivity) hn0]
      linarith [hmul]
    have hsplit := abs_sub_le_iff.mp hdev
    have hgt : ((a / n : ℕ) : ℚ) < roundDouble q := by
      have h1 := hsplit.2
      linarith
    have hlt : roundDouble q < ((a / n : ℕ) : ℚ) + 1 := by
      have h1 := hsplit.1
      linarith
    have hd0 : ¬ roundDouble q < 0 := by
      have : (0 : ℚ) ≤ ((a / n : ℕ) : ℚ) := by positivity
      linarith
    rw [pyTrueDiv, hcastdiv, pyInt, if_neg hd0]
    rw [Int.floor_eq_iff]
    constructor
    · rw [Int.cast_natCast]
      exact le_of_lt hgt
    · rw [Int.cast_natCast]
      exact hlt

theorem pyInt_intCast (k : ℤ) : pyInt (k : ℚ) = k := by
  rw [pyInt]
  split_ifs with h
  · rw [show -(k : ℚ) = ((-k : ℤ) : ℚ) by push_cast; ring, Int.floor_intCast]
    omega
  · exact Int.floor_intCast k

/-- The correctly rounded binary64 value of 2 ^ 54 + 3: the significand is
54 bits wide, one more than a double holds, and the value rounds up to
2 ^ 54 + 4. -/
theorem roundDouble_two_pow54_add3 : roundDouble ((2 : ℚ) ^ 54 + 3) = 2 ^ 54 + 4 := by
  have hq : (0 : ℚ) < 2 ^ 54 + 3 := by positivity
  have hlog : Int.log 2 ((2 : ℚ) ^ 54 + 3) = 54 := by
    have hc1 : ((2 : ℕ) : ℚ) ^ (54 : ℤ) = (2 : ℚ) ^ (54 : ℕ) := by
      rw [show ((54 : ℤ)) = ((54 : ℕ) : ℤ) by norm_num, zpow_natCast]
      norm_num
    have hc2 : ((2 : ℕ) : ℚ) ^ (55 : ℤ) = (2 : ℚ) ^ (55 : ℕ) := by
      rw [show ((55 : ℤ)) = ((55 : ℕ) : ℤ) by norm_num, zpow_natCast]
      norm_num
    have h1 : (54 : ℤ) ≤ Int.log 2 ((2 : ℚ) ^ 54 + 3) := by
      rw [← Int.zpow_le_iff_le_log (by norm_num) hq, hc1]
      norm_num
    have h2 : Int.log 2 ((2 : ℚ) ^ 54 + 3) < 55 := by
      rw [← Int.lt_zpow_iff_log_lt (by norm_num) hq, hc2]
      norm_num
    omega
  rw [roundDouble, if_pos hq, hlog]
  have hsc : ((2 : ℚ) ^ 54 + 3) * (2 : ℚ) ^ ((52 : ℤ) - 54) = 2 ^ 52 + 3 / 4 := by
    rw [show ((52 : ℤ) - 54) = (-2 : ℤ) by norm_num]
    rw [show (2 : ℚ) ^ (-2 : ℤ) = 1 / 4 by
      rw [show ((-2 : ℤ)) = -((2 : ℕ) : ℤ) by norm_num, zpow_neg, zpow_natCast]
      norm_num]
    norm_num
  rw [hsc]
  have hfloor : ⌊(2 : ℚ) ^ 52 + 3 / 4⌋ = (2 : ℤ) ^ 52 := by
    rw [Int.floor_eq_iff]
    constructor
    · push_cast
      norm_num
    · push_cast
      norm_num
  rw [roundHalfEven, hfloor]
  have hfrac : ((2 : ℚ) ^ 52 + 3 / 4) - (((2 : ℤ) ^ 52 : ℤ) : ℚ) = 3 / 4 := by
    push_cast
    ring
  rw [hfrac]
  rw [if_neg (by norm_num), if_pos (by norm_num)]
  rw [show ((54 : ℤ) - 52) = ((2 : ℕ) : ℤ) by norm_num, zpow_natCast]
  push_cast
  ring

/-! ## Claim C1 -/

/-- Claim C1, counterexample: one completed invocation of the wrapping
dispatch handler taking 2 ^ 54 + 3 nanoseconds leaves num_requests = 1 and
processing_time = 2 ^ 54 + 3, but average_processing_time = 2 ^ 54 + 4,
which differs from the integer quotient processing_time // num_requests =
2 ^ 54 + 3: int(processing_time / num_requests) uses float true-division
and 2 ^ 54 + 3 is not representable in binary64. -/
theorem claim_C1_counterexample :
    (Api.Service.handlerStep (Api.EndpointStats.new Examples.cfgEx)
        Option.none (2 ^ 54 + 3)).num_requests = 1
    ∧ (Api.Service.handlerStep (Api.EndpointStats.new Examples.cfgEx)
        Option.none (2 ^ 54 + 3)).processing_time = 2 ^ 54 + 3
    ∧ (Api.Service.handlerStep (Api.EndpointStats.new Examples.cfgEx)
        Option.none (2 ^ 54 + 3)).average_processing_time = 2 ^ 54 + 4
    ∧ (2 ^ 54 + 4 : ℤ) ≠ (((2 ^ 54 + 3 : ℤ).toNat / (1 : ℤ).toNat : ℕ) : ℤ) := by
  refine ⟨by decide, by decide, ?_, by decide⟩
  show pyInt (pyTrueDiv ((Api.EndpointStats.new Examples.cfgEx).processing_time
    + (2 ^ 54 + 3)) ((Api.EndpointStats.new Examples.cfgEx).num_requests + 1)) = 2 ^ 54 + 4
  rw [show (Api.EndpointStats.new Examples.cfgEx).processing_time = 0 from rfl,
    show (Api.EndpointStats.new Examples.cfgEx).num_requests = 0 from rfl]
  rw [pyTrueDiv]
  rw [show (((0 + (2 ^ 54 + 3) : ℤ) : ℚ)) / (((0 + 1 : ℤ) : ℚ)) = (2 : ℚ) ^ 54 + 3 by
    push_cast
    norm_num]
  rw [roundDouble_two_pow54_add3]
  rw [show ((2 : ℚ) ^ 54 + 4 : ℚ) = (((2 ^ 54 + 4 : ℤ)) : ℚ) by push_cast; norm_num]
  rw [pyInt_intCast]

/-- Claim C1, amended: after each completed invocation of the wrapping
dispatch handler, average_processing_time equals the int() truncation of
the correctly rounded binary64 quotient of processing_time by
num_requests; this coincides with the integer quotient
processing_time // num_requests whenever the cumulative processing_time
is below 2 ^ 53, but not for arbitrarily large values. -/
theorem claim_C1_amended (s : Api.EndpointStats) (outcome : Option String)
    (elapsed : Int) (hreq : 0 ≤ s.num_requests) (hpt : 0 ≤ s.processing_time)
    (hel : 0 ≤ elapsed) (hsmall : s.processing_time + elapsed < 2 ^ 53) :
    (Api.Service.handlerStep s outcome elapsed).num_requests = s.num_requests + 1
    ∧ (Api.Service.handlerStep s outcome elapsed).processing_time
        = s.processing_time + elapsed
    ∧ (Api.Service.handlerStep s outcome elapsed).average_processing_time
        = (((s.processing_time + elapsed).toNat / (s.num_requests + 1).toNat : ℕ) : ℤ) := by
  have key : pyInt (pyTrueDiv (s.processing_time + elapsed) (s.num_requests + 1))
      = (((s.processing_time + elapsed).toNat / (s.num_requests + 1).toNat : ℕ) : ℤ) := by
    obtain ⟨A, hA⟩ : ∃ A : ℕ, s.processing_time + elapsed = (A : ℤ) :=
      ⟨(s.processing_time + elapsed).toNat, (Int.toNat_of_nonneg (by omega)).symm⟩
    obtain ⟨N, hN⟩ : ∃ N : ℕ, s.num_requests + 1 = (N : ℤ) :=
      ⟨(s.num_requests + 1).toNat, (Int.toNat_of_nonneg (by omega)).symm⟩
    rw [hA, hN, Int.toNat_natCast, Int.toNat_natCast]
    apply pyTrueDiv_eq_div
    · omega
    · have h1 : (A : ℤ) < 2 ^ 53 := by rw [← hA]; exact hsmall
      have h2 : ((2 : ℤ)) ^ 53 = ((2 ^ 53 : ℕ) : ℤ) := by norm_num
      rw [h2] at h1
      exact_mod_cast h1
  cases outcome <;>
    exact ⟨rfl, rfl, key⟩

/-- Witness for the amended claim C1 theorem: a first invocation taking
6 nanoseconds yields the exact average 6. -/
theorem claim_C1_amended_witness :
    ((0 : ℤ) ≤ (Api.EndpointStats.new Examples.cfgEx).num_requests)
    ∧ ((Api.Service.handlerStep (Api.EndpointStats.new Examples.cfgEx)
          Option.none 6).num_requests
        = (Api.EndpointStats.new Examples.cfgEx).num_requests + 1
      ∧ (Api.Service.handlerStep (Api.EndpointStats.new Examples.cfgEx)
          Option.none 6).processing_time
        = (Api.EndpointStats.new Examples.cfgEx).processing_time + 6
      ∧ (Api.Service.handlerStep (Api.EndpointStats.new Examples.cfgEx)
          Option.none 6).average_processing_time
        = ((((Api.EndpointStats.new Examples.cfgEx).processing_time + 6).toNat
            / ((Api.EndpointStats.new Examples.cfgEx).num_requests + 1).toNat : ℕ) : ℤ)) :=
  ⟨by decide,
    claim_C1_amended (Api.EndpointStats.new Examples.cfgEx) Option.none 6
      (by decide) (by decide) (by decide) (by decide)⟩

/-! ## Claim C7 -/

theorem handlerStep_num_requests (s : Api.EndpointStats) (o : Option String)
    (e : Int) :
    (Api.Service.handlerStep s o e).num_requests = s.num_requests + 1 := by
  cases o <;> rfl

theorem handlerStep_num_errors (s : Api.EndpointStats) (o : Option String)
    (e : Int) :
    (Api.Service.handlerStep s o e).num_errors
      = s.num_errors + (if o.isSome then 1 else 0) := by
  cases o <;> simp [Api.Service.handlerStep]

theorem foldl_handlerStep_invariant (trace : List (Option String × Int))
    (s : Api.EndpointStats) (h : s.num_errors ≤ s.num_requests) :
    (trace.foldl (fun t p => Api.Service.handlerStep t p.1 p.2) s).num_errors
      ≤ (trace.foldl (fun t p => Api.Service.handlerStep t p.1 p.2) s).num_requests := by
  induction trace generalizing s with
  | nil => simpa using h
  | cons p rest ih =>
    simp only [List.foldl_cons]
    apply ih
    rw [handlerStep_num_requests, handlerStep_num_errors]
    cases p.1 <;> simp <;> omega

/-- Claim C7: each completed invocation of the wrapping dispatch handler
increments num_requests exactly once and increments num_errors exactly
when the user handler raised; consequently, along every sequence of
completed invocations starting from fresh statistics,
num_errors ≤ num_requests holds after each invocation. -/
theorem claim_C7_num_errors_le_num_requests {H : Type}
    (cfg : Api.EndpointConfig H) (trace : List (Option String × Int))
    (s : Api.EndpointStats) (o : Option String) (e : Int) :
    ((Api.Service.handlerStep s o e).num_requests = s.num_requests + 1
      ∧ (Api.Service.handlerStep s o e).num_errors
          = s.num_errors + (if o.isSome then 1 else 0))
    ∧ (Api.foldStats cfg trace).num_errors ≤ (Api.foldStats cfg trace).num_requests := by
  refine ⟨⟨handlerStep_num_requests s o e, handlerStep_num_errors s o e⟩, ?_⟩
  apply foldl_handlerStep_invariant
  simp [Api.EndpointStats.new]

/-! ## Claims C8 and C10 -/

theorem pyOrDict_some {α : Type} (l : List α) : pyOrDict (some l) [] = l := by
  cases l <;> simp [pyOrDict]

theorem dotConcat_ne_empty (a b : String) : a ++ "." ++ b ≠ "" := by
  intro h
  have hlen := congrArg String.length h
  simp [String.length_append] at hlen
  exact absurd hlen.1.2 (by decide)

/-- Claim C8: the effective endpoint configuration merges explicit call
arguments first, then group defaults, then service defaults: explicit
nonempty arguments win; subject None defaults to the endpoint name;
queue_group None defaults to the service queue group; an endpoint added
through a group gets the group name, a dot and the endpoint subject as
subject, and the group queue group and limits as fallbacks before the
service ones. -/
theorem claim_C8_effective_endpoint_config {H : Type} (svc : Api.ServiceConfig)
    (g : Api.GroupConfig) (name : String) (h : H) (s qg : String)
    (md : List (String × String)) (pb pm : Int)
    (hs : s ≠ "") (hqg : qg ≠ "") (hpb : pb ≠ 0) (hpm : pm ≠ 0)
    (hgq : g.queue_group ≠ "")
    (hgpb : g.pending_bytes_limit_by_endpoint ≠ 0)
    (hgpm : g.pending_msgs_limit_by_endpoint ≠ 0) :
    svc.endpoint_config name h (some s) (some qg) (some md) (some pb) (some pm)
      = { name := name, subject := s, handler := h, queue_group := qg
          metadata := md, pending_msgs_limit := pm, pending_bytes_limit := pb }
    ∧ svc.endpoint_config name h Option.none Option.none Option.none
        Option.none Option.none
      = { name := name, subject := name, handler := h
          queue_group := svc.queue_group, metadata := []
          pending_msgs_limit := svc.pending_msgs_limit_by_endpoint
          pending_bytes_limit := svc.pending_bytes_limit_by_endpoint }
    ∧ Api.Group.add_endpoint_config svc false g name h Option.none Option.none
        Option.none Option.none Option.none
      = Except.ok
          { name := name, subject := g.name ++ "." ++ name, handler := h
            queue_group := g.queue_group, metadata := []
            pending_msgs_limit := g.pending_msgs_limit_by_endpoint
            pending_bytes_limit := g.pending_bytes_limit_by_endpoint }
    ∧ Api.Group.add_endpoint_config svc false g name h (some s) (some qg)
        (some md) (some pb) (some pm)
      = Except.ok
          { name := name, subject := g.name ++ "." ++ s, handler := h
            queue_group := qg, metadata := md
            pending_msgs_limit := pm, pending_bytes_limit := pb } := by
  refine ⟨?_, ?_, ?_, ?_⟩ <;>
    simp [Api.ServiceConfig.endpoint_config, Api.Group.add_endpoint_config,
      Api.Service.add_endpoint_config, pyOrStr, pyOrInt, pyOrDict_some,
      pyOrDict, hs, hqg, hpb, hpm, hgq, hgpb, hgpm, dotConcat_ne_empty]

/-- Witness for the claim C8 theorem at concrete configurations. -/
theorem claim_C8_effective_endpoint_config_witness :
    (("ECHO" : String) ≠ "" ∧ ("q2" : String) ≠ ""
      ∧ ((7 : ℤ) ≠ 0) ∧ ((9 : ℤ) ≠ 0)
      ∧ Examples.grpEx.queue_group ≠ ""
      ∧ Examples.grpEx.pending_bytes_limit_by_endpoint ≠ 0
      ∧ Examples.grpEx.pending_msgs_limit_by_endpoint ≠ 0)
    ∧ (Examples.svcEx.endpoint_config "echo" () (some "ECHO") (some "q2")
        (some [("k", "v")]) (some 7) (some 9)
      = { name := "echo", subject := "ECHO", handler := (), queue_group := "q2"
          metadata := [("k", "v")], pending_msgs_limit := 9
          pending_bytes_limit := 7 }
    ∧ Examples.svcEx.endpoint_config "echo" () Option.none Option.none
        Option.none Option.none Option.none
      = { name := "echo", subject := "echo", handler := ()
          queue_group := Examples.svcEx.queue_group, metadata := []
          pending_msgs_limit := Examples.svcEx.pending_msgs_limit_by_endpoint
          pending_bytes_limit := Examples.svcEx.pending_bytes_limit_by_endpoint }
    ∧ Api.Group.add_endpoint_config Examples.svcEx false Examples.grpEx "echo" ()
        Option.none Option.none Option.none Option.none Option.none
      = Except.ok
          { name := "echo", subject := Examples.grpEx.name ++ "." ++ "echo"
            handler := (), queue_group := Examples.grpEx.queue_group
            metadata := []
            pending_msgs_limit := Examples.grpEx.pending_msgs_limit_by_endpoint
            pending_bytes_limit := Examples.grpEx.pending_bytes_limit_by_endpoint }
    ∧ Api.Group.add_endpoint_config Examples.svcEx false Examples.grpEx "echo" ()
        (some "ECHO") (some "q2") (some [("k", "v")]) (some 7) (some 9)
      = Except.ok
          { name := "echo", subject := Examples.grpEx.name ++ "." ++ "ECHO"
            handler := (), queue_group := "q2", metadata := [("k", "v")]
            pending_msgs_limit := 9, pending_bytes_limit := 7 }) :=
  ⟨⟨by decide, by decide, by decide, by decide, by decide, by decide, by decide⟩,
    claim_C8_effective_endpoint_config Examples.svcEx Examples.grpEx "echo" ()
      "ECHO" "q2" [("k", "v")] 7 9 (by decide) (by decide) (by decide)
      (by decide) (by decide) (by decide) (by decide)⟩

/-- Claim C10: a falsy explicit argument (empty-string subject or
queue_group, zero pending limit) is treated as unset: the effective
configuration is the one computed for an absent argument, for
ServiceConfig.endpoint_config, GroupConfig.child and Group.add_endpoint
alike. -/
theorem claim_C10_falsy_arguments_fall_back {H : Type} (svc : Api.ServiceConfig)
    (g : Api.GroupConfig) (name : String) (h : H) :
    svc.endpoint_config name h (some "") (some "") Option.none (some 0) (some 0)
      = svc.endpoint_config name h Option.none Option.none Option.none
          Option.none Option.none
    ∧ g.child name (some "") (some 0) (some 0)
      = g.child name Option.none Option.none Option.none
    ∧ Api.Group.add_endpoint_config svc false g name h (some "") (some "")
        Option.none (some 0) (some 0)
      = Api.Group.add_endpoint_config svc false g name h Option.none Option.none
          Option.none Option.none Option.none := by
  refine ⟨?_, ?_, ?_⟩ <;>
    simp [Api.ServiceConfig.endpoint_config, Api.GroupConfig.child,
      Api.Group.add_endpoint_config, Api.Service.add_endpoint_config,
      pyOrStr, pyOrInt, pyOrDict]

/-! ## Claim C3 -/

/-- Claim C3: Client.request raises a ServiceError exactly when the
received response carries the Nats-Service-Error-Code header, and the
raised error carries the int of that header value as code, the
Nats-Service-Error header (or the empty string) as description, the
request subject, the raw response data and the response headers;
otherwise the response data is returned. -/
theorem claim_C3_request_service_error (subject : String)
    (response : MicroClient.ResponseMsg) :
    (∀ code, dictGet response.headers "Nats-Service-Error-Code" = some code →
      MicroClient.Client.request subject response
        = Except.error
            { code := MicroClient.pyIntOfString code
              description := (dictGet response.headers "Nats-Service-Error").getD ""
              subject := subject
              data := response.data
              headers := response.headers })
    ∧ (dictGet response.headers "Nats-Service-Error-Code" = Option.none →
        MicroClient.Client.request subject response = Except.ok response.data)
    ∧ ((∃ e, MicroClient.Client.request subject response = Except.error e)
        ↔ ∃ code, dictGet response.headers "Nats-Service-Error-Code" = some code) := by
  refine ⟨?_, ?_, ?_⟩
  · intro code hcode
    rw [MicroClient.Client.request, hcode]
  · intro hnone
    rw [MicroClient.Client.request, hnone]
  · constructor
    · rintro ⟨e, he⟩
      rcases hcode : dictGet response.headers "Nats-Service-Error-Code" with _ | code
      · rw [MicroClient.Client.request, hcode] at he
        exact absurd he (by simp)
      · exact ⟨code, rfl⟩
    · rintro ⟨code, hcode⟩
      rw [MicroClient.Client.request, hcode]
      exact ⟨_, rfl⟩

/-- Witness for the claim C3 theorem: a response with the error headers
raises the fully populated ServiceError, one without them returns the
data. -/
theorem claim_C3_request_service_error_witness :
    (dictGet Examples.respErrEx.headers "Nats-Service-Error-Code" = some "500")
    ∧ MicroClient.Client.request "svc.echo" Examples.respErrEx
        = Except.error
            { code := MicroClient.pyIntOfString "500"
              description :=
                (dictGet Examples.respErrEx.headers "Nats-Service-Error").getD ""
              subject := "svc.echo"
              data := Examples.respErrEx.data
              headers := Examples.respErrEx.headers }
    ∧ MicroClient.Client.request "svc.echo" Examples.respOkEx
        = Except.ok Examples.respOkEx.data :=
  ⟨rfl,
    (claim_C3_request_service_error "svc.echo" Examples.respErrEx).1 "500" rfl,
    (claim_C3_request_service_error "svc.echo" Examples.respOkEx).2.1 rfl⟩

/-! ## Claim C9 -/

theorem collectResponses_sentinel (maxc : Option Nat)
    (post : List RequestMany.Msg) (m : RequestMany.Msg) (hm : m.data = "") :
    ∀ (pre : List RequestMany.Msg) (acc : Nat),
      (∀ x ∈ pre, x.data ≠ "") →
      (∀ k, acc < k → k ≤ acc + pre.length → maxc ≠ some k) →
      RequestMany.collectResponses true maxc acc (pre ++ m :: post) = pre := by
  intro pre
  induction pre with
  | nil =>
    intro acc _ _
    simp [RequestMany.collectResponses, hm]
  | cons x xs ih =>
    intro acc hpre hcount
    rw [List.cons_append, RequestMany.collectResponses]
    rw [if_neg (by simp [hpre x (by simp)])]
    rw [if_neg (hcount (acc + 1) (by omega) (by rw [List.length_cons]; omega))]
    rw [ih (acc + 1) (fun y hy => hpre y (by simp [hy]))
      (fun k h1 h2 => hcount k (by omega) (by rw [List.length_cons]; omega))]

theorem yielded_sentinel (maxc : Option Nat) (post : List RequestMany.Msg)
    (m : RequestMany.Msg) (hm : m.subject = "sentinel") :
    ∀ (pre : List RequestMany.Msg) (total : Nat),
      (∀ x ∈ pre, x.subject ≠ "sentinel") →
      (∀ k, total ≤ k → k ≤ total + pre.length →
        RequestMany.maxCountReached maxc k = false) →
      RequestMany.RequestManyIterator.yielded true maxc total (pre ++ m :: post)
        = pre := by
  intro pre
  induction pre with
  | nil =>
    intro total _ hcount
    rw [List.nil_append, RequestMany.RequestManyIterator.yielded]
    rw [if_neg (by rw [hcount total (by omega) (by simp)]; simp)]
    rw [if_pos (by simp [hm])]
  | cons x xs ih =>
    intro total hpre hcount
    rw [List.cons_append, RequestMany.RequestManyIterator.yielded]
    rw [if_neg (by rw [hcount total (by omega) (by simp)]; simp)]
    rw [if_neg (by simp [hpre x (by simp)])]
    rw [ih (total + 1) (fun y hy => hpre y (by simp [hy]))
      (fun k h1 h2 => hcount k (by omega) (by rw [List.length_cons]; omega))]

/-- Claim C9: with stop_on_sentinel set, the batch request_many stops
collecting at the first reply whose body is empty and does not include
that reply (given the count limit did not fire earlier); the iterator
form stops at the first reply whose subject equals the sentinel subject
and does not yield it. -/
theorem claim_C9_stop_on_sentinel (maxc : Option Nat)
    (pre post pre2 post2 : List RequestMany.Msg) (m m2 : RequestMany.Msg)
    (hm : m.data = "") (hpre : ∀ x ∈ pre, x.data ≠ "")
    (hcount : ∀ k, 0 < k → k ≤ pre.length → maxc ≠ some k)
    (hm2 : m2.subject = "sentinel")
    (hpre2 : ∀ x ∈ pre2, x.subject ≠ "sentinel")
    (hcount2 : ∀ k, k ≤ pre2.length → RequestMany.maxCountReached maxc k = false) :
    RequestMany.collectResponses true maxc 0 (pre ++ m :: post) = pre
    ∧ RequestMany.RequestManyIterator.yielded true maxc 0 (pre2 ++ m2 :: post2)
        = pre2 := by
  constructor
  · exact collectResponses_sentinel maxc post m hm pre 0 hpre
      (fun k h1 h2 => hcount k h1 (by omega))
  · exact yielded_sentinel maxc post2 m2 hm2 pre2 0 hpre2
      (fun k _ h2 => hcount2 k (by omega))

/-- Witness for the claim C9 theorem with one ordinary reply before each
sentinel. -/
theorem claim_C9_stop_on_sentinel_witness :
    (Examples.msgEmpty.data = "" ∧ Examples.msgSent.subject = "sentinel")
    ∧ RequestMany.collectResponses true Option.none 0
        ([Examples.msgA] ++ Examples.msgEmpty :: [Examples.msgB])
      = [Examples.msgA]
    ∧ RequestMany.RequestManyIterator.yielded true Option.none 0
        ([Examples.msgA] ++ Examples.msgSent :: [Examples.msgB])
      = [Examples.msgA] :=
  ⟨⟨rfl, rfl⟩,
    claim_C9_stop_on_sentinel Option.none [Examples.msgA] [Examples.msgB]
      [Examples.msgA] [Examples.msgB] Examples.msgEmpty Examples.msgSent rfl
      (by intro x hx; rw [List.mem_singleton] at hx; subst hx; decide)
      (by intro k h1 h2 h; exact Option.noConfusion h)
      rfl
      (by intro x hx; rw [List.mem_singleton] at hx; subst hx; decide)
      (by intro k hk; rfl)⟩

/-! ## Claim C4 -/

/-- Claim C4, counterexample: a handler that returns without calling
respond, wrapped by apply_middlewares with one pass-through middleware,
makes get_response raise ValueError inside the chain; the service wrapper
catches it and publishes the generic 500 error reply, so a reply is
published after all. -/
theorem claim_C4_counterexample :
    Middleware.apply_middlewares Examples.hNoRespond [Examples.mwPass]
        Examples.reqEx
      = ([], some (PyErr.valueError "No response was set"))
    ∧ Middleware.serviceDispatchPublished
        (Middleware.apply_middlewares Examples.hNoRespond [Examples.mwPass])
        Examples.reqEx
      = [Middleware.errorReply500 "inbox.1"]
    ∧ Middleware.serviceDispatchPublished
        (Middleware.apply_middlewares Examples.hNoRespond [Examples.mwPass])
        Examples.reqEx ≠ ([] : List Middleware.PubMsg) := by
  refine ⟨rfl, rfl, ?_⟩
  intro h
  exact absurd h (by decide)

theorem chain_propagates_error (mws : List Middleware.MiddlewareFn)
    (nh : Middleware.NextHandler) (req : Middleware.Request) (e : PyErr)
    (hmw : ∀ mw ∈ mws, ∃ g : Middleware.Response → Middleware.Response,
      ∀ r nh2, mw r nh2 = Except.map g (nh2 r))
    (hnh : nh req = Except.error e) :
    Middleware._apply_middlewares_to_next_handler nh mws req = Except.error e := by
  induction mws with
  | nil => exact hnh
  | cons mw rest ih =>
    obtain ⟨g, hg⟩ := hmw mw (by simp)
    show Middleware._chain_next_handler_and_middleware
      (Middleware._apply_middlewares_to_next_handler nh rest) mw req = Except.error e
    rw [Middleware._chain_next_handler_and_middleware, hg,
      ih (fun m hm => hmw m (by simp [hm]))]
    rfl

/-- Claim C4, amended: with an empty middleware chain a handler that
returns without calling respond publishes nothing; but with a non-empty
chain of response-transformer middlewares, the terminal forward handler
raises ValueError from get_response, the error escapes to the service
wrapper, and the generic 500 error reply is published when the request
has a reply subject. -/
theorem claim_C4_amended (h : Middleware.Handler)
    (mws : List Middleware.MiddlewareFn) (req : Middleware.Request)
    (rsub : String) (hh1 : (h req).responds = [])
    (hh2 : (h req).raises = Option.none)
    (hmw : ∀ mw ∈ mws, ∃ g : Middleware.Response → Middleware.Response,
      ∀ r nh2, mw r nh2 = Except.map g (nh2 r))
    (hne : mws ≠ []) (hreply : req.reply = some rsub) :
    Middleware.serviceDispatchPublished (Middleware.apply_middlewares h []) req
      = []
    ∧ Middleware.apply_middlewares h mws req
        = ([], some (PyErr.valueError "No response was set"))
    ∧ Middleware.serviceDispatchPublished (Middleware.apply_middlewares h mws)
        req = [Middleware.errorReply500 rsub] := by
  have hterm : Middleware._create_next_handler h req
      = Except.error (PyErr.valueError "No response was set") := by
    rw [Middleware._create_next_handler, hh2, hh1]
    rfl
  have hchain := chain_propagates_error mws (Middleware._create_next_handler h)
    req (PyErr.valueError "No response was set") hmw hterm
  have hwrapped : Middleware.apply_middlewares h mws req
      = ([], some (PyErr.valueError "No response was set")) := by
    rw [Middleware.apply_middlewares, if_neg (by simp [hne])]
    rw [Middleware._create_final_handler, hchain]
  refine ⟨?_, hwrapped, ?_⟩
  · rw [Middleware.serviceDispatchPublished]
    rw [show Middleware.apply_middlewares h [] req = ([], Option.none) by
      simp only [Middleware.apply_middlewares, List.isEmpty_nil, ite_true,
        Middleware.runHandlerReal, hh1, hh2]
      cases hr : req.reply <;> simp]
  · rw [Middleware.serviceDispatchPublished, hwrapped, hreply]
    rfl

/-- Witness for the amended claim C4 theorem at the concrete handler,
middleware and request. -/
theorem claim_C4_amended_witness :
    ((Examples.hNoRespond Examples.reqEx).responds = []
      ∧ (Examples.hNoRespond Examples.reqEx).raises = Option.none
      ∧ Examples.reqEx.reply = some "inbox.1")
    ∧ (Middleware.serviceDispatchPublished
        (Middleware.apply_middlewares Examples.hNoRespond []) Examples.reqEx
      = []
    ∧ Middleware.apply_middlewares Examples.hNoRespond [Examples.mwPass]
        Examples.reqEx
      = ([], some (PyErr.valueError "No response was set"))
    ∧ Middleware.serviceDispatchPublished
        (Middleware.apply_middlewares Examples.hNoRespond [Examples.mwPass])
        Examples.reqEx
      = [Middleware.errorReply500 "inbox.1"]) :=
  ⟨⟨rfl, rfl, rfl⟩,
    claim_C4_amended Examples.hNoRespond [Examples.mwPass] Examples.reqEx
      "inbox.1" rfl rfl
      (by
        intro mw hmem
        rw [List.mem_singleton] at hmem
        subst hmem
        refine ⟨id, ?_⟩
        intro r nh2
        cases hv : nh2 r <;> simp [Examples.mwPass, Except.map, hv])
      (by exact List.cons_ne_nil _ _) rfl⟩

/-! ## Claim C2 -/

/-- Claim C2, counterexample: with a catch table declaring only a
ValueError entry and a thrown value of a subclass of ValueError, the code
replies with the ValueError entry (isinstance matching), while matching
by type identity of the thrown value, as the claim states, would find no
entry and produce the generic 500 reply. -/
theorem claim_C2_counterexample :
    AsyncApi.typedErrorReply Examples.catchEx id Examples.raisedEx
      = (400, "Bad request", "")
    ∧ AsyncApi.specTypeIdentityReply Examples.catchEx id Examples.raisedEx
      = (500, "Internal Server Error", "")
    ∧ AsyncApi.typedErrorReply Examples.catchEx id Examples.raisedEx
      ≠ AsyncApi.specTypeIdentityReply Examples.catchEx id Examples.raisedEx := by
  refine ⟨rfl, rfl, ?_⟩
  intro hcontra
  exact absurd hcontra (by decide)

theorem dictInsert_of_not_mem {κ ν : Type} [BEq κ] (d : List (κ × ν)) (k : κ)
    (v : ν) (h : ∀ p ∈ d, (p.1 == k) = false) :
    dictInsert d k v = d ++ [(k, v)] := by
  rw [dictInsert, if_neg]
  rw [List.any_eq_true]
  rintro ⟨p, hp, hpk⟩
  rw [h p hp] at hpk
  exact Bool.noConfusion hpk

theorem foldl_dictInsert_append (l : List AsyncApi.CatchEntry)
    (d0 : List (AsyncApi.ExcType × AsyncApi.CatchEntry))
    (hd : ∀ e ∈ l, ∀ p ∈ d0, (p.1 == e.origin) = false)
    (hl : l.Pairwise (fun x y => x.origin ≠ y.origin)) :
    l.foldl (fun d e => dictInsert d e.origin e) d0
      = d0 ++ l.map (fun e => (e.origin, e)) := by
  induction l generalizing d0 with
  | nil => simp
  | cons e rest ih =>
    rw [List.foldl_cons, dictInsert_of_not_mem _ _ _ (hd e (by simp))]
    rw [List.pairwise_cons] at hl
    rw [ih (d0 ++ [(e.origin, e)]) ?_ hl.2]
    · simp
    · intro e2 he2 p hp
      rcases List.mem_append.mp hp with hp0 | hp1
      · exact hd e2 (by simp [he2]) p hp0
      · rw [List.mem_singleton] at hp1
        subst hp1
        exact beq_eq_false_iff_ne.mpr (hl.1 e2 he2)

theorem buildCatchDict_of_pairwise (l : List AsyncApi.CatchEntry)
    (hl : l.Pairwise (fun x y => x.origin ≠ y.origin)) :
    AsyncApi.buildCatchDict l = l.map (fun e => (e.origin, e)) := by
  rw [AsyncApi.buildCatchDict, foldl_dictInsert_append l [] (by simp) hl]
  simp

theorem mem_foldl_dictInsert (l : List AsyncApi.CatchEntry)
    (d0 : List (AsyncApi.ExcType × AsyncApi.CatchEntry))
    (p : AsyncApi.ExcType × AsyncApi.CatchEntry)
    (hp : p ∈ l.foldl (fun d e => dictInsert d e.origin e) d0) :
    p ∈ d0 ∨ ∃ x ∈ l, p.1 = x.origin := by
  induction l generalizing d0 with
  | nil => exact Or.inl hp
  | cons e rest ih =>
    rw [List.foldl_cons] at hp
    rcases ih (dictInsert d0 e.origin e) hp with hmem | ⟨x, hx, hpx⟩
    · rw [dictInsert] at hmem
      split_ifs at hmem with hcond
      · rcases List.mem_map.mp hmem with ⟨q, hq, hfq⟩
        by_cases hqk : (q.1 == e.origin) = true
        · rw [if_pos hqk] at hfq
          exact Or.inr ⟨e, by simp, by rw [← hfq]⟩
        · rw [if_neg hqk] at hfq
          exact Or.inl (hfq ▸ hq)
      · rcases List.mem_append.mp hmem with hq | hq
        · exact Or.inl hq
        · rw [List.mem_singleton] at hq
          exact Or.inr ⟨e, by simp, by rw [hq]⟩
    · exact Or.inr ⟨x, by simp [hx], hpx⟩

theorem findSome?_append_of_prefix_none {α β : Type} (f : α → Option β)
    (pre : List α) (x : α) (post : List α) (b : β)
    (hpre : ∀ a ∈ pre, f a = Option.none) (hx : f x = some b) :
    (pre ++ x :: post).findSome? f = some b := by
  induction pre with
  | nil => simp [List.findSome?_cons, hx]
  | cons a rest ih =>
    rw [List.cons_append, List.findSome?_cons, hpre a (by simp)]
    exact ih (fun a2 ha2 => hpre a2 (by simp [ha2]))

/-- Claim C2, amended: for an exception raised by a typed operation
handler, the first entry in iteration order of the deduplicated catch
dict whose error_origin matches the thrown value by isinstance
(subclass-aware, not type identity) determines the error reply; when the
declared origins are pairwise distinct this is the first matching entry
of the declared table. An exception matching no entry propagates to the
service-level wrapper, which replies with generic code 500 and
description Internal Server Error. -/
theorem claim_C2_amended (catchEntries pre post : List AsyncApi.CatchEntry)
    (entry : AsyncApi.CatchEntry) (encode : String → String) (e : AsyncApi.Exc)
    (hdist : (pre ++ entry :: post).Pairwise (fun x y => x.origin ≠ y.origin))
    (hpre : ∀ x ∈ pre, e.ty.isSubclassOf x.origin = false)
    (hentry : e.ty.isSubclassOf entry.origin = true)
    (hnone : ∀ x ∈ catchEntries, e.ty.isSubclassOf x.origin = false) :
    AsyncApi.typedErrorReply (pre ++ entry :: post) encode e
      = (entry.code, entry.description, AsyncApi.errorPayload entry encode e)
    ∧ AsyncApi.typedErrorReply catchEntries encode e
      = (500, "Internal Server Error", "") := by
  constructor
  · rw [AsyncApi.typedErrorReply, AsyncApi.operationCatch,
      buildCatchDict_of_pairwise _ hdist, List.map_append, List.map_cons]
    rw [findSome?_append_of_prefix_none _ _ _ _
      (entry.code, entry.description, AsyncApi.errorPayload entry encode e)
      ?_ ?_]
    · intro a ha
      rcases List.mem_map.mp ha with ⟨x, hx, hax⟩
      rw [← hax]
      simp [hpre x hx]
    · simp [hentry]
  · rw [AsyncApi.typedErrorReply, AsyncApi.operationCatch]
    rw [show (AsyncApi.buildCatchDict catchEntries).findSome? _ = Option.none from ?_]
    rw [List.findSome?_eq_none]
    intro p hp
    rcases mem_foldl_dictInsert catchEntries [] p hp with hmem | ⟨x, hx, hpx⟩
    · exact absurd hmem (List.not_mem_nil p)
    · simp [hpx, hnone x hx]

/-- Witness for the amended claim C2 theorem: the single ValueError entry
catches the raised subclass value; an empty catch table yields the
generic 500 reply. -/
theorem claim_C2_amended_witness :
    (Examples.raisedEx.ty.isSubclassOf Examples.excValueError = true)
    ∧ (AsyncApi.typedErrorReply
        ([] ++ { origin := Examples.excValueError, code := 400
                 description := "Bad request"
                 fmt := Option.none } :: []) id Examples.raisedEx
      = (400, "Bad request",
          AsyncApi.errorPayload
            { origin := Examples.excValueError, code := 400
              description := "Bad request", fmt := Option.none }
            id Examples.raisedEx)
    ∧ AsyncApi.typedErrorReply [] id Examples.raisedEx
      = (500, "Internal Server Error", "")) :=
  ⟨by decide,
    claim_C2_amended [] []
      []
      { origin := Examples.excValueError, code := 400
        description := "Bad request", fmt := Option.none }
      id Examples.raisedEx
      (by simp)
      (by intro x hx; exact absurd hx (List.not_mem_nil x))
      (by decide)
      (by intro x hx; exact absurd hx (List.not_mem_nil x))⟩

/-! ## Claim C6 -/

theorem fresh_find {fields : List String} (junk : List (String × PyVal))
    (hj : ∀ q ∈ junk, q.1 ∉ fields) :
    ∀ k : String, k ∈ fields → junk.find? (fun q => q.1 == k) = Option.none := by
  intro k hk
  rw [List.find?_eq_none]
  intro q hq
  have hne : q.1 ≠ k := by
    intro he
    exact hj q hq (by rw [he]; exact hk)
  simp [hne]

theorem mapM_loop_ok {α β : Type} (f : α → Except PyErr β) (g : α → β)
    (l : List α) (h : ∀ a ∈ l, f a = Except.ok (g a)) :
    ∀ acc : List β, List.mapM.loop f l acc = Except.ok (acc.reverse ++ l.map g) := by
  induction l with
  | nil =>
    intro acc
    simp [List.mapM.loop]
    rfl
  | cons x xs ih =>
    intro acc
    rw [List.mapM.loop, h x (by simp)]
    show List.mapM.loop f xs (g x :: acc) = _
    rw [ih (fun a ha => h a (by simp [ha]))]
    simp

theorem mapM_loop_decodeStr (err : String) (m : List (String × String)) :
    List.mapM.loop (fun p => match p.2 with
      | (PyVal.str s) => Except.ok (p.1, s)
      | _ => Except.error (PyErr.typeError err))
      (m.map (fun p => (p.1, PyVal.str p.2))) [] = Except.ok m := by
  rw [mapM_loop_ok _
    (fun p => (p.1, match p.2 with | PyVal.str s => s | _ => "")) _ ?_]
  · rw [List.reverse_nil, List.nil_append, List.map_map]
    congr 1
    induction m with
    | nil => rfl
    | cons x xs ih => rw [List.map_cons, ih]; rfl
  · intro a ha
    rcases List.mem_map.mp ha with ⟨te, hte, hh⟩
    rw [← hh]

theorem pingInfoRoundTrip (p : Models.PingInfo) (junk : List (String × PyVal))
    (hj : ∀ q ∈ junk, q.1 ∉ Models.pingInfoFields) :
    Models.PingInfo.from_response (p.as_dict ++ junk) = Except.ok p := by
  have hfind := fresh_find junk hj
  rcases p with ⟨name, id, version, metadata, ty⟩
  simp +decide [Models.PingInfo.as_dict, Models.PingInfo.from_response,
    Models.reqStr, Models.reqStrDict, Models.strWithDefault,
    Models.encodeStrDict, dictGet, List.find?,
    hfind "name" (by decide), hfind "id" (by decide),
    hfind "version" (by decide), hfind "metadata" (by decide),
    hfind "type" (by decide), mapM_loop_decodeStr, Except.bind]
  rfl

theorem endpointStatsRoundTrip (s : Models.EndpointStats)
    (junk : List (String × PyVal))
    (hj : ∀ q ∈ junk, q.1 ∉ Models.endpointStatsFields) :
    Models.EndpointStats.from_response (s.as_dict ++ junk) = Except.ok s := by
  have hfind := fresh_find junk hj
  rcases s with ⟨name, subject, nreq, nerr, lerr, pt, apt, qg, data⟩
  rcases qg with _ | qg <;> rcases data with _ | data
  all_goals
    simp +decide [Models.EndpointStats.as_dict,
      Models.EndpointStats.from_response, Models.reqStr, Models.reqInt,
      Models.optStr, Models.optData, dictGet, List.find?,
      hfind "name" (by decide), hfind "subject" (by decide),
      hfind "num_requests" (by decide), hfind "num_errors" (by decide),
      hfind "last_error" (by decide), hfind "processing_time" (by decide),
      hfind "average_processing_time" (by decide),
      hfind "queue_group" (by decide), hfind "data" (by decide),
      Except.bind]
  all_goals rfl

theorem endpointInfoRoundTrip (s : Models.EndpointInfo)
    (junk : List (String × PyVal))
    (hj : ∀ q ∈ junk, q.1 ∉ Models.endpointInfoFields) :
    Models.EndpointInfo.from_response (s.as_dict ++ junk) = Except.ok s := by
  have hfind := fresh_find junk hj
  rcases s with ⟨name, subject, md, qg⟩
  rcases md with _ | md <;> rcases qg with _ | qg
  all_goals
    simp +decide [Models.EndpointInfo.as_dict,
      Models.EndpointInfo.from_response, Models.reqStr, Models.optStr,
      Models.optStrDict, Models.encodeStrDict, dictGet, List.find?,
      hfind "name" (by decide), hfind "subject" (by decide),
      hfind "metadata" (by decide), hfind "queue_group" (by decide),
      mapM_loop_decodeStr, Except.bind, Except.map]
  all_goals rfl

theorem endpointInfo_kwargs_as_dict (s : Models.EndpointInfo) :
    Models.EndpointInfo.kwargs s.as_dict = Except.ok s := by
  rw [Models.EndpointInfo.kwargs, if_pos ?_]
  · rw [show s.as_dict = s.as_dict ++ [] by simp]
    exact endpointInfoRoundTrip s []
      (by intro q hq; exact absurd hq (List.not_mem_nil q))
  · rcases s with ⟨name, subject, md, qg⟩
    rcases md with _ | md <;> rcases qg with _ | qg <;>
      simp +decide [Models.EndpointInfo.as_dict, Models.EndpointInfo.fieldNames]

theorem mapM_loop_endpointStats (junkEp : List (String × PyVal))
    (hj : ∀ q ∈ junkEp, q.1 ∉ Models.endpointStatsFields)
    (eps : List Models.EndpointStats) :
    ∀ acc : List Models.EndpointStats,
    List.mapM.loop (fun e => match e with
        | PyVal.dict d => Models.EndpointStats.from_response d
        | _ => Except.error (PyErr.typeError "endpoints"))
      (eps.map (fun ep => PyVal.dict (ep.as_dict ++ junkEp))) acc
      = Except.ok (acc.reverse ++ eps) := by
  induction eps with
  | nil =>
    intro acc
    simp [List.mapM.loop]
    rfl
  | cons ep rest ih =>
    intro acc
    rw [List.map_cons, List.mapM.loop]
    show Except.bind (Models.EndpointStats.from_response (ep.as_dict ++ junkEp))
      _ = _
    rw [endpointStatsRoundTrip ep junkEp hj]
    show List.mapM.loop _ _ (ep :: acc) = _
    rw [ih (ep :: acc)]
    simp

theorem mapM_loop_endpointInfo (eps : List Models.EndpointInfo) :
    ∀ acc : List Models.EndpointInfo,
    List.mapM.loop (fun e => match e with
        | PyVal.dict d => Models.EndpointInfo.kwargs d
        | _ => Except.error (PyErr.typeError "endpoints"))
      (eps.map (fun ep => PyVal.dict ep.as_dict)) acc
      = Except.ok (acc.reverse ++ eps) := by
  induction eps with
  | nil =>
    intro acc
    simp [List.mapM.loop]
    rfl
  | cons ep rest ih =>
    intro acc
    rw [List.map_cons, List.mapM.loop]
    show Except.bind (Models.EndpointInfo.kwargs ep.as_dict) _ = _
    rw [endpointInfo_kwargs_as_dict ep]
    show List.mapM.loop _ _ (ep :: acc) = _
    rw [ih (ep :: acc)]
    simp

theorem serviceStatsRoundTrip (s : Models.ServiceStats)
    (junkTop junkEp : List (String × PyVal))
    (hjt : ∀ q ∈ junkTop, q.1 ∉ Models.serviceStatsFields)
    (hje : ∀ q ∈ junkEp, q.1 ∉ Models.endpointStatsFields) :
    Models.ServiceStats.from_response
        (s.encodedWithUnknownKeys junkTop junkEp) = Except.ok s := by
  have hfind := fresh_find junkTop hjt
  rcases s with ⟨name, id, version, started, eps, md, ty⟩
  rcases md with _ | md
  all_goals
    simp +decide [Models.ServiceStats.encodedWithUnknownKeys,
      Models.ServiceStats.from_response, Models.reqStr, Models.optStrDict,
      Models.strWithDefault, Models.encodeStrDict, dictGet, List.find?,
      hfind "name" (by decide), hfind "id" (by decide),
      hfind "version" (by decide), hfind "started" (by decide),
      hfind "metadata" (by decide), hfind "type" (by decide),
      mapM_loop_decodeStr, mapM_loop_endpointStats junkEp hje,
      Except.bind, Except.map]
  all_goals rfl

theorem serviceInfoRoundTrip (s : Models.ServiceInfo)
    (junk : List (String × PyVal))
    (hj : ∀ q ∈ junk, q.1 ∉ Models.serviceInfoFields) :
    Models.ServiceInfo.from_response (s.as_dict ++ junk) = Except.ok s := by
  have hfind := fresh_find junk hj
  rcases s with ⟨name, id, version, description, md, eps, ty⟩
  simp +decide [Models.ServiceInfo.as_dict, Models.ServiceInfo.from_response,
    Models.reqStr, Models.reqStrDict, Models.strWithDefault,
    Models.encodeStrDict, dictGet, List.find?,
    hfind "name" (by decide), hfind "id" (by decide),
    hfind "version" (by decide), hfind "description" (by decide),
    hfind "metadata" (by decide), hfind "type" (by decide),
    mapM_loop_decodeStr, mapM_loop_endpointInfo, Except.bind, Except.map]
  rfl

/-- Claim C6, counterexample: a ServiceInfo response that is exactly the
encoding of a ServiceInfo except for one unknown key inside the nested
endpoint entry. ServiceInfo.from_response raises TypeError, because it
rebuilds nested entries with the keyword constructor EndpointInfo(**ep)
instead of the open-world Base.from_response, which would have accepted
the same entry. -/
theorem claim_C6_counterexample :
    Models.ServiceInfo.from_response Examples.infoRespEx
      = Except.error (PyErr.typeError "unexpected keyword argument")
    ∧ Examples.infoRespEx
      = [("name", PyVal.str "svc"), ("id", PyVal.str "abc123"),
         ("version", PyVal.str "1.0.0"), ("description", PyVal.str "demo"),
         ("metadata", Models.encodeStrDict []),
         ("endpoints", PyVal.list
           [PyVal.dict (Examples.epInfoEx.as_dict
             ++ [("extra_key", PyVal.str "surprise")])]),
         ("type", PyVal.str "io.nats.micro.v1.info_response")]
    ∧ Models.EndpointInfo.from_response
        (Examples.epInfoEx.as_dict ++ [("extra_key", PyVal.str "surprise")])
      = Except.ok Examples.epInfoEx := by
  exact ⟨rfl, rfl, rfl⟩

/-- Claim C6, amended: for each monitoring model, from_response inverts
the as_dict encoding on defined fields, and unknown keys are ignored at
the top level for all five models and inside the nested per-endpoint
entries of ServiceStats; unknown keys inside the nested per-endpoint
entries of ServiceInfo are not ignored (see the counterexample). -/
theorem claim_C6_amended (p : Models.PingInfo) (ei : Models.EndpointInfo)
    (es : Models.EndpointStats) (ss : Models.ServiceStats)
    (si : Models.ServiceInfo) (junkP junkEI junkES junkTop junkEp junkSI :
      List (String × PyVal))
    (hjP : ∀ q ∈ junkP, q.1 ∉ Models.pingInfoFields)
    (hjEI : ∀ q ∈ junkEI, q.1 ∉ Models.endpointInfoFields)
    (hjES : ∀ q ∈ junkES, q.1 ∉ Models.endpointStatsFields)
    (hjT : ∀ q ∈ junkTop, q.1 ∉ Models.serviceStatsFields)
    (hjE : ∀ q ∈ junkEp, q.1 ∉ Models.endpointStatsFields)
    (hjSI : ∀ q ∈ junkSI, q.1 ∉ Models.serviceInfoFields) :
    Models.PingInfo.from_response (p.as_dict ++ junkP) = Except.ok p
    ∧ Models.EndpointInfo.from_response (ei.as_dict ++ junkEI) = Except.ok ei
    ∧ Models.EndpointStats.from_response (es.as_dict ++ junkES) = Except.ok es
    ∧ Models.ServiceStats.from_response
        (ss.encodedWithUnknownKeys junkTop junkEp) = Except.ok ss
    ∧ Models.ServiceInfo.from_response (si.as_dict ++ junkSI) = Except.ok si :=
  ⟨pingInfoRoundTrip p junkP hjP, endpointInfoRoundTrip ei junkEI hjEI,
    endpointStatsRoundTrip es junkES hjES,
    serviceStatsRoundTrip ss junkTop junkEp hjT hjE,
    serviceInfoRoundTrip si junkSI hjSI⟩

/-- Witness for the amended claim C6 theorem at concrete model instances,
each with one unknown key added. -/
theorem claim_C6_amended_witness :
    ((∀ q ∈ Examples.junkEx, q.1 ∉ Models.pingInfoFields)
      ∧ (∀ q ∈ Examples.junkEx, q.1 ∉ Models.serviceInfoFields))
    ∧ (Models.PingInfo.from_response (Examples.pingEx.as_dict ++ Examples.junkEx)
        = Except.ok Examples.pingEx
    ∧ Models.EndpointInfo.from_response
        (Examples.epInfoEx.as_dict ++ Examples.junkEx)
        = Except.ok Examples.epInfoEx
    ∧ Models.EndpointStats.from_response
        (Examples.epStatsEx.as_dict ++ Examples.junkEx)
        = Except.ok Examples.epStatsEx
    ∧ Models.ServiceStats.from_response
        (Examples.svcStatsEx.encodedWithUnknownKeys Examples.junkEx
          Examples.junkEx)
        = Except.ok Examples.svcStatsEx
    ∧ Models.ServiceInfo.from_response
        (Examples.siEx.as_dict ++ Examples.junkEx)
        = Except.ok Examples.siEx) :=
  ⟨⟨by intro q hq; simp only [Examples.junkEx, List.mem_singleton] at hq; subst hq; decide,
    by intro q hq; simp only [Examples.junkEx, List.mem_singleton] at hq; subst hq; decide⟩,
    claim_C6_amended Examples.pingEx Examples.epInfoEx Examples.epStatsEx
      Examples.svcStatsEx Examples.siEx Examples.junkEx Examples.junkEx
      Examples.junkEx Examples.junkEx Examples.junkEx Examples.junkEx
      (by intro q hq; simp only [Examples.junkEx, List.mem_singleton] at hq; subst hq; decide)
      (by intro q hq; simp only [Examples.junkEx, List.mem_singleton] at hq; subst hq; decide)
      (by intro q hq; simp only [Examples.junkEx, List.mem_singleton] at hq; subst hq; decide)
      (by intro q hq; simp only [Examples.junkEx, List.mem_singleton] at hq; subst hq; decide)
      (by intro q hq; simp only [Examples.junkEx, List.mem_singleton] at hq; subst hq; decide)
      (by intro q hq; simp only [Examples.junkEx, List.mem_singleton] at hq; subst hq; decide)⟩

/-! ## Claim C5 -/

/-- Claim C5, the code evaluated at the failing input: constructing the
placeholders of the docstring template foo.{bar}.baz.{qux...} raises
ValueError. The position lookup replaces the ellipsis by the MATCH_ONE
star inside the subject but by the MATCH_ALL wildcard inside the searched
placeholder, so list.index looks for a token that cannot exist. A
wildcard-free template works, and its extraction and construction do
round-trip on a matching subject. -/
theorem claim_C5_wildcard_template_valueerror :
    Address.Placeholders.from_subject Examples.templateEx
      = Except.error (PyErr.valueError "is not in list")
    ∧ Address.Placeholders.from_subject Examples.templateNoWild
      = Except.ok { subject := "foo.*".data
                    mapping := [("bar".data, 1)]
                    wildcard := Option.none }
    ∧ Address.Placeholders.get_subject
        { subject := "foo.*".data, mapping := [("bar".data, 1)]
          wildcard := Option.none }
        (fun _ => "abc".data) []
      = "foo.abc".data
    ∧ Address.Placeholders.extract_parameters
        { subject := "foo.*".data, mapping := [("bar".data, 1)]
          wildcard := Option.none }
        ("foo.abc".data)
      = [("bar".data, Address.ParamValue.tok "abc".data)] := by
  exact ⟨rfl, rfl, rfl, rfl⟩

end NatsMicro
